import Mathlib

/-!
# Host virtual switch resource: identity codec, expand/flatten, CRUD operations

A shallow embedding of `vsphere/resource_vsphere_host_virtual_switch.go`.
The four resource operations (Create, Read, Update, Delete) are translated
statement by statement.  They run against a remote world of abstract state
`σ`; every helper call and every remote call they make is appended to a
trace, so that ordering and "which calls were issued" can be stated.

Helpers whose bodies are not part of the translated files
(`saveHostVirtualSwitchID`, `virtualSwitchIDsFromResourceID`,
`expandHostVirtualSwitchSpec`, `flattenHostVirtualSwitchSpec`) are fields of
an environment record, with the types their call sites fix.  Separately,
each of them has a concrete definition written from the specification text.

The `context.WithTimeout` deadline of the remote writes is not modelled as
time: a call that runs into it is a call that returns an error.

The file also translates the schema function of the resource,
`resourceVSphereHostVirtualSwitch`, and the uplink and trunk VLAN checks of
`vsphere/resource_vsphere_distributed_virtual_switch_test.go`.
-/

namespace VSphere

/-! ## Errors -/

/-- Category carried by a structured fault of the remote API. -/
inductive FaultKind where
  | notFound
  | conflict
  | transient
  | fatal
  deriving DecidableEq, Repr

/-- A Go `error` value.  `fault` is a structured fault as returned by the
remote API (category plus message); `errorf` is the value built by
`fmt.Errorf`, which holds a message and nothing else. -/
inductive GoError where
  | fault (kind : FaultKind) (msg : String)
  | errorf (msg : String)
  deriving DecidableEq, Repr

/-- The `Error()` method: the message of an error value. -/
def GoError.Error : GoError → String
  | .fault _ msg => msg
  | .errorf msg => msg

/-- The call `fmt.Errorf(pre + "%s", err)`: a new message-only error whose
text is the prefix followed by `err.Error()`. -/
def fmtErrorf (pre : String) (err : GoError) : GoError :=
  .errorf (pre ++ err.Error)

/-- The structured category of an error value, when it still has one. -/
def GoError.kind? : GoError → Option FaultKind
  | .fault k _ => some k
  | .errorf _ => none

deriving instance DecidableEq for Except

/-! ## Identity codec (from the specification, section 4.1) -/

/-- The composite key of a switch resource (specification, section 3). -/
inductive SwitchIdentity where
  | HostScoped (hostRef : String) (name : String)
  | DistributedRef (moRef : String)
  deriving DecidableEq, Repr

/-- Failures of the identity codec. -/
inductive CodecError where
  | EncodingError
  | MalformedIdentity
  deriving DecidableEq, Repr

/-- Modelled from the spec: `Encode` of the Identity Codec (the body of
`saveHostVirtualSwitchID` is not among the translated files).  For a
host-scoped identity the host reference and the name are concatenated with
the delimiter between them, failing with `EncodingError` when the name
contains the delimiter; a distributed reference is returned as it is.  The
delimiter itself is not named by the specification and is a parameter. -/
def Encode (delim : Char) : SwitchIdentity → Except CodecError String
  | .HostScoped hostRef name =>
    if delim ∈ name.data then .error .EncodingError
    else .ok (String.mk (hostRef.data ++ delim :: name.data))
  | .DistributedRef moRef => .ok moRef

/-- Modelled from the spec: `Decode` of the Identity Codec (the body of
`virtualSwitchIDsFromResourceID` is not among the translated files).  The
string is split on the delimiter: with no delimiter it is taken to be a
distributed reference, with exactly one it is a host-scoped identity, and
with more than one it is malformed. -/
def Decode (delim : Char) (s : String) : Except CodecError SwitchIdentity :=
  if s.data.count delim = 0 then .ok (.DistributedRef s)
  else if s.data.count delim = 1 then
    .ok (.HostScoped (String.mk (s.data.takeWhile (· != delim)))
      (String.mk ((s.data.dropWhile (· != delim)).drop 1)))
  else .error .MalformedIdentity

/-- Modelled from the spec: the host-scoped reading of `Decode`.  A string
without a delimiter is not host-scoped shaped and is malformed here. -/
def DecodeHostScoped (delim : Char) (s : String) : Except CodecError (String × String) :=
  match Decode delim s with
  | .ok (.HostScoped hostRef name) => .ok (hostRef, name)
  | .ok (.DistributedRef _) => .error .MalformedIdentity
  | .error e => .error e

/-- A host-scoped identity is valid when the delimiter occurs neither in the
host reference nor in the name. -/
def ValidHostScoped (delim : Char) (hostRef name : String) : Prop :=
  delim ∉ hostRef.data ∧ delim ∉ name.data

/-! ## Data model -/

/-- The resource data `d` of one `vsphere_host_virtual_switch` resource: the
persisted identity string (`d.Id()`, empty while unset) and the configuration
fields.  `name` and `host_system_id` are declared in
`resourceVSphereHostVirtualSwitch`; the remaining fields are the switch-spec
fields that the same function marks Required or gives a Default, together
with `network_adapters`, the declared uplink pool of the specification. -/
structure ResourceData where
  id : String
  name : String
  host_system_id : String
  network_adapters : List String
  active_nics : List String
  standby_nics : List String
  teaming_policy : String
  check_beacon : Bool
  notify_switches : Bool
  failback : Bool
  allow_promiscuous : Bool
  allow_forged_transmits : Bool
  allow_mac_changes : Bool
  shaping_enabled : Bool
  deriving DecidableEq, Repr

/-- Modelled from the spec: the teaming sub-object of the imperative spec
(its Go type is declared outside the translated files).  It carries the
teaming mode, the three booleans of TeamingPolicy and the active and standby
membership lists.  Every field may be absent, which is distinct from an
empty list. -/
structure NicTeamingPolicy where
  policy : Option String
  beaconProbing : Option Bool
  notifySwitches : Option Bool
  rollingFailback : Option Bool
  activeNic : Option (List String)
  standbyNic : Option (List String)
  deriving DecidableEq, Repr

/-- Modelled from the spec: the SecurityPolicy sub-object. -/
structure SecurityPolicy where
  allowPromiscuous : Option Bool
  forgedTransmits : Option Bool
  macChanges : Option Bool
  deriving DecidableEq, Repr

/-- Modelled from the spec: the TrafficShapingPolicy sub-object, reduced to
the one shaping field the resource schema names. -/
structure TrafficShapingPolicy where
  enabled : Option Bool
  deriving DecidableEq, Repr

/-- Modelled from the spec: the imperative specification object of a
host-local switch (`types.HostVirtualSwitchSpec`, declared outside the
translated files).  `nicDevice` is the flat precedence-ordered uplink list;
each policy sub-object is optional, an absent one meaning inherited. -/
structure HostVirtualSwitchSpec where
  nicDevice : Option (List String)
  nicTeaming : Option NicTeamingPolicy
  security : Option SecurityPolicy
  shapingPolicy : Option TrafficShapingPolicy
  deriving DecidableEq, Repr

/-- The remote object returned by `hostVSwitchFromName`; only its `Spec`
field is read by the resource. -/
structure HostVirtualSwitch where
  Spec : HostVirtualSwitchSpec
  deriving DecidableEq, Repr

/-- The handle returned by `hostNetworkSystemFromHostSystemID`. -/
structure HostNetworkSystem where
  ref : String
  deriving DecidableEq, Repr

/-! ## Helpers, written from the specification -/

/-- Modelled from the spec: `saveHostVirtualSwitchID(d, hsID, name)` stores
the encoding of the host-scoped identity as the resource ID.  The call site
in Create uses no result of it, so when `Encode` fails the resource data is
left as it was. -/
def saveHostVirtualSwitchID (delim : Char) (d : ResourceData) (hsID name : String) :
    ResourceData :=
  match Encode delim (.HostScoped hsID name) with
  | .ok s => { d with id := s }
  | .error _ => d

/-- Modelled from the spec: `virtualSwitchIDsFromResourceID(d)` decodes the
resource ID as a host-scoped identity. -/
def virtualSwitchIDsFromResourceID (delim : Char) (d : ResourceData) :
    Except GoError (String × String) :=
  match DecodeHostScoped delim d.id with
  | .ok p => .ok p
  | .error .MalformedIdentity => .error (.errorf "MalformedIdentity")
  | .error .EncodingError => .error (.errorf "EncodingError")

/-- Modelled from the spec: the declarative model of a switch, in which the
presence of a field is distinguishable from its default (sections 6 and 9):
`none` is Unset, `some v` is Override(v).  The fields are those of the
resource data. -/
structure DeclaredSwitch where
  network_adapters : Option (List String)
  active_nics : Option (List String)
  standby_nics : Option (List String)
  teaming_policy : Option String
  check_beacon : Option Bool
  notify_switches : Option Bool
  failback : Option Bool
  allow_promiscuous : Option Bool
  allow_forged_transmits : Option Bool
  allow_mac_changes : Option Bool
  shaping_enabled : Option Bool
  deriving DecidableEq, Repr

/-- Modelled from the spec: the Spec Expander (section 4.2).  The uplink
pool becomes the precedence list.  A policy sub-object is populated only if
the caller supplied one of its fields, whatever the value, and is absent
otherwise; inside a populated sub-object a field that was not supplied stays
absent. -/
def Expand (m : DeclaredSwitch) : HostVirtualSwitchSpec :=
  { nicDevice := m.network_adapters
    nicTeaming :=
      if m.teaming_policy.isSome || m.check_beacon.isSome || m.notify_switches.isSome ||
          m.failback.isSome || m.active_nics.isSome || m.standby_nics.isSome then
        some
          { policy := m.teaming_policy
            beaconProbing := m.check_beacon
            notifySwitches := m.notify_switches
            rollingFailback := m.failback
            activeNic := m.active_nics
            standbyNic := m.standby_nics }
      else none
    security :=
      if m.allow_promiscuous.isSome || m.allow_forged_transmits.isSome ||
          m.allow_mac_changes.isSome then
        some
          { allowPromiscuous := m.allow_promiscuous
            forgedTransmits := m.allow_forged_transmits
            macChanges := m.allow_mac_changes }
      else none
    shapingPolicy :=
      if m.shaping_enabled.isSome then some { enabled := m.shaping_enabled } else none }

/-- Modelled from the spec: the reconstruction of one half of the UplinkSet
(section 4.3).  The names are taken from the flat precedence-ordered list,
in its order, and a name is kept when the membership list has it; a name of
the precedence list that the membership list lacks is dropped. -/
def reconstructUplinks (precedence members : List String) : List String :=
  precedence.filter (fun n => members.contains n)

/-- Modelled from the spec: the Spec Flattener (section 4.3).  The uplink
pool is the precedence list; the active and the standby list are
reconstructed from the precedence list and the membership lists of the
teaming sub-object; an absent sub-object or field means inherited and comes
back as Unset, not as an empty or zero value. -/
def Flatten (spec : HostVirtualSwitchSpec) : DeclaredSwitch :=
  let precedence := spec.nicDevice.getD []
  { network_adapters := spec.nicDevice
    active_nics :=
      (spec.nicTeaming.bind (fun t => t.activeNic)).map (reconstructUplinks precedence)
    standby_nics :=
      (spec.nicTeaming.bind (fun t => t.standbyNic)).map (reconstructUplinks precedence)
    teaming_policy := spec.nicTeaming.bind (fun t => t.policy)
    check_beacon := spec.nicTeaming.bind (fun t => t.beaconProbing)
    notify_switches := spec.nicTeaming.bind (fun t => t.notifySwitches)
    failback := spec.nicTeaming.bind (fun t => t.rollingFailback)
    allow_promiscuous := spec.security.bind (fun p => p.allowPromiscuous)
    allow_forged_transmits := spec.security.bind (fun p => p.forgedTransmits)
    allow_mac_changes := spec.security.bind (fun p => p.macChanges)
    shaping_enabled := spec.shapingPolicy.bind (fun p => p.enabled) }

/-- Modelled from the spec: the remote-side defaults, the values the remote
platform reports for what a spec left absent.  The specification names no
values; they are a parameter. -/
structure RemoteDefaults where
  nicDevice : List String
  policy : String
  beaconProbing : Bool
  notifySwitches : Bool
  rollingFailback : Bool
  activeNic : List String
  standbyNic : List String
  allowPromiscuous : Bool
  forgedTransmits : Bool
  macChanges : Bool
  shapingEnabled : Bool
  deriving DecidableEq, Repr

/-- Modelled from the spec: the current-state object that the remote
platform reports for a switch that was given `spec`.  What the spec holds is
reported as it is; what it left absent is reported with the remote-side
default. -/
def remoteCurrentState (defaults : RemoteDefaults) (spec : HostVirtualSwitchSpec) :
    HostVirtualSwitchSpec :=
  let t : NicTeamingPolicy := spec.nicTeaming.getD ⟨none, none, none, none, none, none⟩
  let p : SecurityPolicy := spec.security.getD ⟨none, none, none⟩
  let sh : TrafficShapingPolicy := spec.shapingPolicy.getD ⟨none⟩
  { nicDevice := some (spec.nicDevice.getD defaults.nicDevice)
    nicTeaming := some
      { policy := some (t.policy.getD defaults.policy)
        beaconProbing := some (t.beaconProbing.getD defaults.beaconProbing)
        notifySwitches := some (t.notifySwitches.getD defaults.notifySwitches)
        rollingFailback := some (t.rollingFailback.getD defaults.rollingFailback)
        activeNic := some (t.activeNic.getD defaults.activeNic)
        standbyNic := some (t.standbyNic.getD defaults.standbyNic) }
    security := some
      { allowPromiscuous := some (p.allowPromiscuous.getD defaults.allowPromiscuous)
        forgedTransmits := some (p.forgedTransmits.getD defaults.forgedTransmits)
        macChanges := some (p.macChanges.getD defaults.macChanges) }
    shapingPolicy := some { enabled := some (sh.enabled.getD defaults.shapingEnabled) } }

/-- A valid UplinkSet (section 3): the pool names each uplink once, the
active and the standby sequence are parts of the pool in its precedence
order, and no name is both active and standby. -/
def UplinkSetValid (pool active standby : List String) : Prop :=
  pool.Nodup ∧ active.Sublist pool ∧ standby.Sublist pool ∧ ∀ n ∈ active, n ∉ standby

instance (pool active standby : List String) : Decidable (UplinkSetValid pool active standby) := by
  unfold UplinkSetValid
  infer_instance

/-- A declarative model is valid when its uplink collections form a valid
UplinkSet; an unset collection counts as empty. -/
def DeclaredSwitch.Valid (m : DeclaredSwitch) : Prop :=
  UplinkSetValid (m.network_adapters.getD []) (m.active_nics.getD [])
    (m.standby_nics.getD [])

instance (m : DeclaredSwitch) : Decidable m.Valid := by
  unfold DeclaredSwitch.Valid
  infer_instance

/-- A declarative model does not rely on remote-side defaults when every
field of it is supplied. -/
def DeclaredSwitch.Supplied (m : DeclaredSwitch) : Bool :=
  m.network_adapters.isSome && m.active_nics.isSome && m.standby_nics.isSome &&
    m.teaming_policy.isSome && m.check_beacon.isSome && m.notify_switches.isSome &&
    m.failback.isSome && m.allow_promiscuous.isSome && m.allow_forged_transmits.isSome &&
    m.allow_mac_changes.isSome && m.shaping_enabled.isSome

/-- The declarative model that the resource data of a host-local switch
holds.  In this resource each of these fields is Required or has a Default
(`resourceVSphereHostVirtualSwitch`), so each is supplied. -/
def ResourceData.declared (d : ResourceData) : DeclaredSwitch :=
  { network_adapters := some d.network_adapters
    active_nics := some d.active_nics
    standby_nics := some d.standby_nics
    teaming_policy := some d.teaming_policy
    check_beacon := some d.check_beacon
    notify_switches := some d.notify_switches
    failback := some d.failback
    allow_promiscuous := some d.allow_promiscuous
    allow_forged_transmits := some d.allow_forged_transmits
    allow_mac_changes := some d.allow_mac_changes
    shaping_enabled := some d.shaping_enabled }

/-- Writes a flattened model into the resource data: a field that came back
with a value is set, a field that came back Unset is left as it is. -/
def ResourceData.withDeclared (d : ResourceData) (m : DeclaredSwitch) : ResourceData :=
  { d with
    network_adapters := m.network_adapters.getD d.network_adapters
    active_nics := m.active_nics.getD d.active_nics
    standby_nics := m.standby_nics.getD d.standby_nics
    teaming_policy := m.teaming_policy.getD d.teaming_policy
    check_beacon := m.check_beacon.getD d.check_beacon
    notify_switches := m.notify_switches.getD d.notify_switches
    failback := m.failback.getD d.failback
    allow_promiscuous := m.allow_promiscuous.getD d.allow_promiscuous
    allow_forged_transmits := m.allow_forged_transmits.getD d.allow_forged_transmits
    allow_mac_changes := m.allow_mac_changes.getD d.allow_mac_changes
    shaping_enabled := m.shaping_enabled.getD d.shaping_enabled }

/-- Modelled from the spec: the Spec Expander for the host-local switch
(`expandHostVirtualSwitchSpec` has no body in the translated files).  Its
call sites bind a single result and pass it on as the spec, so it has no
error result.  It expands the declarative model that `d` holds. -/
def expandHostVirtualSwitchSpec (d : ResourceData) : HostVirtualSwitchSpec :=
  Expand d.declared

/-- Modelled from the spec: the Spec Flattener for the host-local switch
(`flattenHostVirtualSwitchSpec(d, spec)` has no body in the translated
files).  It flattens the current-state object and writes the result into
`d`.  The second component is the error result of the Go signature, which
this model never raises. -/
def flattenHostVirtualSwitchSpec (d : ResourceData) (spec : HostVirtualSwitchSpec) :
    ResourceData × Option GoError :=
  (d.withDeclared (Flatten spec), none)

/-- The switch-spec fields of the resource data: every field except the
identity string and the two ForceNew keys. -/
def ResourceData.specFields (d : ResourceData) :
    List String × List String × List String × String ×
      Bool × Bool × Bool × Bool × Bool × Bool × Bool :=
  (d.network_adapters, d.active_nics, d.standby_nics, d.teaming_policy,
    d.check_beacon, d.notify_switches, d.failback, d.allow_promiscuous,
    d.allow_forged_transmits, d.allow_mac_changes, d.shaping_enabled)

/-- The uplink invariant of the data model: active and standby names come
from the declared pool and the two lists do not overlap. -/
def uplinkInvariant (pool active standby : List String) : Bool :=
  active.all (fun n => pool.contains n) && standby.all (fun n => pool.contains n) &&
    active.all (fun n => !standby.contains n)

/-! ## The resource operations -/

/-- One executed statement of a resource operation that calls a helper or
the remote API, with the arguments of the call. -/
inductive Step where
  | virtualSwitchIDsFromResourceID
  | hostNetworkSystemFromHostSystemID (hsID : String)
  | expandHostVirtualSwitchSpec
  | AddVirtualSwitch (ns : HostNetworkSystem) (name : String) (spec : HostVirtualSwitchSpec)
  | UpdateVirtualSwitch (ns : HostNetworkSystem) (name : String) (spec : HostVirtualSwitchSpec)
  | RemoveVirtualSwitch (ns : HostNetworkSystem) (name : String)
  | saveHostVirtualSwitchID (hsID : String) (name : String)
  | hostVSwitchFromName (ns : HostNetworkSystem) (name : String)
  | flattenHostVirtualSwitchSpec (spec : HostVirtualSwitchSpec)
  deriving DecidableEq, Repr

/-- Remote writes: the calls that change the remote platform. -/
def Step.isWrite : Step → Bool
  | .AddVirtualSwitch _ _ _ => true
  | .UpdateVirtualSwitch _ _ _ => true
  | .RemoveVirtualSwitch _ _ => true
  | _ => false

/-- Remote calls: the writes and the two lookups, which take the API client. -/
def Step.isRemote : Step → Bool
  | .hostNetworkSystemFromHostSystemID _ => true
  | .hostVSwitchFromName _ _ => true
  | s => s.isWrite

/-- Whether the step is an `UpdateVirtualSwitch` call. -/
def Step.isUpdate : Step → Bool
  | .UpdateVirtualSwitch _ _ _ => true
  | _ => false

/-- Whether the step is an `AddVirtualSwitch` call. -/
def Step.isAdd : Step → Bool
  | .AddVirtualSwitch _ _ _ => true
  | _ => false

/-- Whether the step is the expansion of the declared model. -/
def Step.isExpand : Step → Bool
  | .expandHostVirtualSwitchSpec => true
  | _ => false

/-- Everything the operations call: the four helpers with the types their
call sites fix, and the remote API, whose answers depend on and may change a
world state `σ`. -/
structure Env (σ : Type) where
  saveHostVirtualSwitchID : ResourceData → String → String → ResourceData
  virtualSwitchIDsFromResourceID : ResourceData → Except GoError (String × String)
  expandHostVirtualSwitchSpec : ResourceData → HostVirtualSwitchSpec
  flattenHostVirtualSwitchSpec :
    ResourceData → HostVirtualSwitchSpec → ResourceData × Option GoError
  hostNetworkSystemFromHostSystemID : σ → String → Except GoError HostNetworkSystem × σ
  hostVSwitchFromName :
    σ → HostNetworkSystem → String → Except GoError HostVirtualSwitch × σ
  AddVirtualSwitch :
    σ → HostNetworkSystem → String → HostVirtualSwitchSpec → Option GoError × σ
  UpdateVirtualSwitch :
    σ → HostNetworkSystem → String → HostVirtualSwitchSpec → Option GoError × σ
  RemoveVirtualSwitch : σ → HostNetworkSystem → String → Option GoError × σ

/-- What an operation leaves behind: the returned error (`none` for `nil`),
the resource data, the steps executed in order, and the remote world. -/
structure Outcome (σ : Type) where
  err : Option GoError
  d : ResourceData
  trace : List Step
  world : σ

/-- The outcome with further steps executed before it. -/
def Outcome.after {σ : Type} (steps : List Step) (o : Outcome σ) : Outcome σ :=
  { o with trace := steps ++ o.trace }

/-- Translation of `resourceVSphereHostVirtualSwitchRead`. -/
def resourceVSphereHostVirtualSwitchRead {σ : Type} (env : Env σ) (d : ResourceData)
    (w : σ) : Outcome σ :=
  match env.virtualSwitchIDsFromResourceID d with
  | .error err => ⟨some err, d, [.virtualSwitchIDsFromResourceID], w⟩
  | .ok (hsID, name) =>
    match env.hostNetworkSystemFromHostSystemID w hsID with
    | (.error err, w1) =>
      ⟨some (fmtErrorf "error loading host network system: " err), d,
        [.virtualSwitchIDsFromResourceID, .hostNetworkSystemFromHostSystemID hsID], w1⟩
    | (.ok ns, w1) =>
      match env.hostVSwitchFromName w1 ns name with
      | (.error err, w2) =>
        ⟨some (fmtErrorf "error fetching virtual switch data: " err), d,
          [.virtualSwitchIDsFromResourceID, .hostNetworkSystemFromHostSystemID hsID,
            .hostVSwitchFromName ns name], w2⟩
      | (.ok sw, w2) =>
        match env.flattenHostVirtualSwitchSpec d sw.Spec with
        | (d1, some err) =>
          ⟨some (fmtErrorf "error setting resource data: " err), d1,
            [.virtualSwitchIDsFromResourceID, .hostNetworkSystemFromHostSystemID hsID,
              .hostVSwitchFromName ns name, .flattenHostVirtualSwitchSpec sw.Spec], w2⟩
        | (d1, none) =>
          ⟨none, d1,
            [.virtualSwitchIDsFromResourceID, .hostNetworkSystemFromHostSystemID hsID,
              .hostVSwitchFromName ns name, .flattenHostVirtualSwitchSpec sw.Spec], w2⟩

/-- Translation of `resourceVSphereHostVirtualSwitchCreate`. -/
def resourceVSphereHostVirtualSwitchCreate {σ : Type} (env : Env σ) (d : ResourceData)
    (w : σ) : Outcome σ :=
  let name := d.name
  let hsID := d.host_system_id
  match env.hostNetworkSystemFromHostSystemID w hsID with
  | (.error err, w1) =>
    ⟨some (fmtErrorf "error loading host network system: " err), d,
      [.hostNetworkSystemFromHostSystemID hsID], w1⟩
  | (.ok ns, w1) =>
    let spec := env.expandHostVirtualSwitchSpec d
    match env.AddVirtualSwitch w1 ns name spec with
    | (some err, w2) =>
      ⟨some (fmtErrorf "error adding host vSwitch: " err), d,
        [.hostNetworkSystemFromHostSystemID hsID, .expandHostVirtualSwitchSpec,
          .AddVirtualSwitch ns name spec], w2⟩
    | (none, w2) =>
      let d1 := env.saveHostVirtualSwitchID d hsID name
      (resourceVSphereHostVirtualSwitchRead env d1 w2).after
        [.hostNetworkSystemFromHostSystemID hsID, .expandHostVirtualSwitchSpec,
          .AddVirtualSwitch ns name spec, .saveHostVirtualSwitchID hsID name]

/-- Translation of `resourceVSphereHostVirtualSwitchUpdate`. -/
def resourceVSphereHostVirtualSwitchUpdate {σ : Type} (env : Env σ) (d : ResourceData)
    (w : σ) : Outcome σ :=
  match env.virtualSwitchIDsFromResourceID d with
  | .error err => ⟨some err, d, [.virtualSwitchIDsFromResourceID], w⟩
  | .ok (hsID, name) =>
    match env.hostNetworkSystemFromHostSystemID w hsID with
    | (.error err, w1) =>
      ⟨some (fmtErrorf "error loading host network system: " err), d,
        [.virtualSwitchIDsFromResourceID, .hostNetworkSystemFromHostSystemID hsID], w1⟩
    | (.ok ns, w1) =>
      let spec := env.expandHostVirtualSwitchSpec d
      match env.UpdateVirtualSwitch w1 ns name spec with
      | (some err, w2) =>
        ⟨some (fmtErrorf "error updating host vSwitch: " err), d,
          [.virtualSwitchIDsFromResourceID, .hostNetworkSystemFromHostSystemID hsID,
            .expandHostVirtualSwitchSpec, .UpdateVirtualSwitch ns name spec], w2⟩
      | (none, w2) =>
        (resourceVSphereHostVirtualSwitchRead env d w2).after
          [.virtualSwitchIDsFromResourceID, .hostNetworkSystemFromHostSystemID hsID,
            .expandHostVirtualSwitchSpec, .UpdateVirtualSwitch ns name spec]

/-- Translation of `resourceVSphereHostVirtualSwitchDelete`. -/
def resourceVSphereHostVirtualSwitchDelete {σ : Type} (env : Env σ) (d : ResourceData)
    (w : σ) : Outcome σ :=
  match env.virtualSwitchIDsFromResourceID d with
  | .error err => ⟨some err, d, [.virtualSwitchIDsFromResourceID], w⟩
  | .ok (hsID, name) =>
    match env.hostNetworkSystemFromHostSystemID w hsID with
    | (.error err, w1) =>
      ⟨some (fmtErrorf "error loading host network system: " err), d,
        [.virtualSwitchIDsFromResourceID, .hostNetworkSystemFromHostSystemID hsID], w1⟩
    | (.ok ns, w1) =>
      match env.RemoveVirtualSwitch w1 ns name with
      | (some err, w2) =>
        ⟨some (fmtErrorf "error deleting host vSwitch: " err), d,
          [.virtualSwitchIDsFromResourceID, .hostNetworkSystemFromHostSystemID hsID,
            .RemoveVirtualSwitch ns name], w2⟩
      | (none, w2) =>
        ⟨none, d,
          [.virtualSwitchIDsFromResourceID, .hostNetworkSystemFromHostSystemID hsID,
            .RemoveVirtualSwitch ns name], w2⟩

/-! ## A sample remote world -/

/-- A remote platform small enough to evaluate: the host IDs that resolve,
and the switches present, each keyed by host reference and name. -/
structure World where
  hosts : List String
  switches : List ((String × String) × HostVirtualSwitchSpec)
  deriving DecidableEq, Repr

/-- Looks a switch up by host reference and name. -/
def World.find (w : World) (ref name : String) : Option HostVirtualSwitchSpec :=
  (w.switches.find? (fun e => e.1 == (ref, name))).map (fun e => e.2)

/-- Removes a switch by host reference and name. -/
def World.erase (w : World) (ref name : String) : World :=
  { w with switches := w.switches.filter (fun e => e.1 != (ref, name)) }

/-- The sample environment: the helpers written from the specification with
the colon as delimiter, and a remote API over `World` that answers with a
not-found fault for a missing host or switch and with a conflict fault for a
switch that already exists. -/
def sampleEnv : Env World where
  saveHostVirtualSwitchID := saveHostVirtualSwitchID ':'
  virtualSwitchIDsFromResourceID := virtualSwitchIDsFromResourceID ':'
  expandHostVirtualSwitchSpec := expandHostVirtualSwitchSpec
  flattenHostVirtualSwitchSpec := flattenHostVirtualSwitchSpec
  hostNetworkSystemFromHostSystemID := fun w hsID =>
    if w.hosts.contains hsID then (.ok ⟨hsID⟩, w)
    else (.error (.fault .notFound "host not found"), w)
  hostVSwitchFromName := fun w ns name =>
    match w.find ns.ref name with
    | some spec => (.ok ⟨spec⟩, w)
    | none => (.error (.fault .notFound "virtual switch not found"), w)
  AddVirtualSwitch := fun w ns name spec =>
    match w.find ns.ref name with
    | some _ => (some (.fault .conflict "virtual switch already exists"), w)
    | none => (none, { w with switches := ((ns.ref, name), spec) :: w.switches })
  UpdateVirtualSwitch := fun w ns name spec =>
    match w.find ns.ref name with
    | some _ =>
      (none, { w with switches := ((ns.ref, name), spec) :: (w.erase ns.ref name).switches })
    | none => (some (.fault .notFound "virtual switch not found"), w)
  RemoveVirtualSwitch := fun w ns name =>
    match w.find ns.ref name with
    | some _ => (none, w.erase ns.ref name)
    | none => (some (.fault .notFound "virtual switch not found"), w)

/-- A declared host-local switch with two adapters, one active and one
standby. -/
def sampleData : ResourceData :=
  { id := ""
    name := "vSwitchTest"
    host_system_id := "host-10"
    network_adapters := ["vmnic0", "vmnic1"]
    active_nics := ["vmnic0"]
    standby_nics := ["vmnic1"]
    teaming_policy := "loadbalance_srcid"
    check_beacon := false
    notify_switches := true
    failback := true
    allow_promiscuous := false
    allow_forged_transmits := true
    allow_mac_changes := true
    shaping_enabled := false }

/-- The sample resource after a successful create: identity persisted. -/
def sampleSaved : ResourceData := { sampleData with id := "host-10:vSwitchTest" }

/-- A world with the sample host and no switch yet. -/
def emptyWorld : World := { hosts := ["host-10"], switches := [] }

/-- A world in which the sample switch exists with exactly the declared spec. -/
def syncedWorld : World :=
  { hosts := ["host-10"]
    switches := [(("host-10", "vSwitchTest"), expandHostVirtualSwitchSpec sampleData)] }

/-- A world in which no host resolves. -/
def noHostWorld : World := { hosts := [], switches := [] }

/-- The sample switch declared with `vmnic0` both active and standby. -/
def overlapData : ResourceData := { sampleData with standby_nics := ["vmnic0"] }

/-- The sample switch declared with an active adapter outside the pool. -/
def outsideData : ResourceData := { sampleData with active_nics := ["vmnic9"] }

/-- Sample remote-side defaults, differing from the sample declaration. -/
def sampleDefaults : RemoteDefaults :=
  { nicDevice := []
    policy := "failover_explicit"
    beaconProbing := true
    notifySwitches := false
    rollingFailback := false
    activeNic := []
    standbyNic := []
    allowPromiscuous := true
    forgedTransmits := false
    macChanges := false
    shapingEnabled := true }

/-- The uplink invariant on the fields of a host-local resource. -/
def ResourceData.uplinksValid (d : ResourceData) : Bool :=
  uplinkInvariant d.network_adapters d.active_nics d.standby_nics

/-- The steps of a trace that come before the declared model is expanded
(the whole trace when it never is). -/
def stepsBeforeExpand (trace : List Step) : List Step :=
  trace.takeWhile (fun s => !s.isExpand)

/-! ## Distributed switch: uplink collections -/

/-- Modelled from the spec: the three uplink collections of a declared
distributed switch, named as in the test configurations: `uplinks`,
`active_uplinks`, `standby_uplinks`.  Each is Unset (`none`) or supplied. -/
structure DVSUplinks where
  uplinks : Option (List String)
  active_uplinks : Option (List String)
  standby_uplinks : Option (List String)
  deriving DecidableEq, Repr

/-- The part of the remote switch configuration that the uplink checks of
the acceptance test read: `UplinkPortPolicy.UplinkPortName` and, under
`DefaultPortConfig.UplinkTeamingPolicy.UplinkPortOrder`, `ActiveUplinkPort`
and `StandbyUplinkPort`.  Each is a Go slice of strings: `none` is the nil
slice, `some []` an empty slice that is not nil. -/
structure VMwareDVSConfigInfo where
  UplinkPortName : Option (List String)
  ActiveUplinkPort : Option (List String)
  StandbyUplinkPort : Option (List String)
  deriving DecidableEq, Repr

/-- Translation of `testAccResourceVSphereDistributedVirtualSwitchHasUplinks`
applied to the fetched properties: nil when `reflect.DeepEqual` holds, else
an error, which is represented by the expected and the actual slice that its
message is formatted from.  On slices of strings `reflect.DeepEqual` holds
when both are nil, or neither is and they have the same elements in the same
order, which is equality of the values here. -/
def testAccResourceVSphereDistributedVirtualSwitchHasUplinks
    (expected : Option (List String)) (props : VMwareDVSConfigInfo) :
    Except (Option (List String) × Option (List String)) Unit :=
  let actual := props.UplinkPortName
  if expected ≠ actual then .error (expected, actual) else .ok ()

/-- Translation of
`testAccResourceVSphereDistributedVirtualSwitchHasActiveUplinks`. -/
def testAccResourceVSphereDistributedVirtualSwitchHasActiveUplinks
    (expected : Option (List String)) (props : VMwareDVSConfigInfo) :
    Except (Option (List String) × Option (List String)) Unit :=
  let actual := props.ActiveUplinkPort
  if expected ≠ actual then .error (expected, actual) else .ok ()

/-- Translation of
`testAccResourceVSphereDistributedVirtualSwitchHasStandbyUplinks`. -/
def testAccResourceVSphereDistributedVirtualSwitchHasStandbyUplinks
    (expected : Option (List String)) (props : VMwareDVSConfigInfo) :
    Except (Option (List String) × Option (List String)) Unit :=
  let actual := props.StandbyUplinkPort
  if expected ≠ actual then .error (expected, actual) else .ok ()

/-- Failure of the Spec Expander. -/
inductive ExpandError where
  | ValidationError
  deriving DecidableEq, Repr

/-- Modelled from the spec: the teaming sub-object of the imperative spec of
a distributed switch, with the active and the standby membership list. -/
structure DVSUplinkOrder where
  activeUplinkPort : Option (List String)
  standbyUplinkPort : Option (List String)
  deriving DecidableEq, Repr

/-- Modelled from the spec: the imperative spec of a distributed switch, as
far as uplinks go: the precedence list and the teaming sub-object, each
absent when nothing was supplied for it. -/
structure DVSUplinkSpec where
  uplinkPortName : Option (List String)
  uplinkTeamingPolicy : Option DVSUplinkOrder
  deriving DecidableEq, Repr

/-- Modelled from the spec: the Spec Expander on the uplink collections of a
distributed switch (the distributed switch resource is not among the
translated files).  A model whose active and standby lists overlap, or name
an uplink outside the declared pool when a pool is declared, is rejected
with `ValidationError`.  Otherwise the precedence list is the declared pool,
and the teaming sub-object is populated, with the declared lists in declared
order, only if the active or the standby list was supplied. -/
def expandDVSUplinks (m : DVSUplinks) : Except ExpandError DVSUplinkSpec :=
  let active := m.active_uplinks.getD []
  let standby := m.standby_uplinks.getD []
  let accepted :=
    match m.uplinks with
    | some pool => uplinkInvariant pool active standby
    | none => active.all (fun n => !standby.contains n)
  if accepted then
    .ok
      { uplinkPortName := m.uplinks
        uplinkTeamingPolicy :=
          if m.active_uplinks.isSome || m.standby_uplinks.isSome then
            some { activeUplinkPort := m.active_uplinks
                   standbyUplinkPort := m.standby_uplinks }
          else none }
  else .error .ValidationError

/-- Modelled from the spec: the Spec Flattener on the uplink collections of
a distributed switch.  The pool is the precedence list; the active and the
standby list are reconstructed from the precedence list and the membership
lists, so a name of the precedence list that is in neither membership list
is dropped. -/
def flattenDVSUplinks (c : VMwareDVSConfigInfo) : DVSUplinks :=
  let precedence := c.UplinkPortName.getD []
  { uplinks := c.UplinkPortName
    active_uplinks := c.ActiveUplinkPort.map (reconstructUplinks precedence)
    standby_uplinks := c.StandbyUplinkPort.map (reconstructUplinks precedence) }

/-- Modelled from the spec: the configuration that the remote platform holds
after it was sent `spec`: what the spec supplies, and for what it leaves
absent the value of `base`, which is the remote-side default when a switch
is created and the current configuration when one is reconfigured. -/
def remoteDVSState (base : VMwareDVSConfigInfo) (spec : DVSUplinkSpec) :
    VMwareDVSConfigInfo :=
  let order : DVSUplinkOrder := spec.uplinkTeamingPolicy.getD ⟨none, none⟩
  { UplinkPortName :=
      match spec.uplinkPortName with
      | some l => some l
      | none => base.UplinkPortName
    ActiveUplinkPort :=
      match order.activeUplinkPort with
      | some l => some l
      | none => base.ActiveUplinkPort
    StandbyUplinkPort :=
      match order.standbyUplinkPort with
      | some l => some l
      | none => base.StandbyUplinkPort }

/-- A planned remote operation on a distributed switch, as far as the uplink
collections go: create the switch, or reconfigure it, with a spec. -/
inductive DVSOp where
  | create (spec : DVSUplinkSpec)
  | reconfigure (spec : DVSUplinkSpec)
  deriving DecidableEq, Repr

/-- Modelled from the spec: the plan for creating a distributed switch from
a declared model, one create operation carrying the expanded spec. -/
def planDVSCreate (m : DVSUplinks) : Except ExpandError (List DVSOp) :=
  (expandDVSUplinks m).map (fun spec => [.create spec])

/-- Modelled from the spec: the Update Planner on the uplink collections.
Diffing compares the declared model with the flattened current state; with
no difference the plan is empty, otherwise it is a single reconfigure
operation carrying the expanded spec. -/
def planDVSUpdate (current : VMwareDVSConfigInfo) (m : DVSUplinks) :
    Except ExpandError (List DVSOp) :=
  if flattenDVSUplinks current = m then .ok []
  else (expandDVSUplinks m).map (fun spec => [.reconfigure spec])

/-- Modelled from the spec: applying a plan in order against the remote
platform, which has the given defaults for a new switch; `current` is the
configuration of the switch, `none` while there is no switch. -/
def applyDVSPlan (defaults : VMwareDVSConfigInfo) (current : Option VMwareDVSConfigInfo) :
    List DVSOp → Option VMwareDVSConfigInfo
  | [] => current
  | .create spec :: ops => applyDVSPlan defaults (some (remoteDVSState defaults spec)) ops
  | .reconfigure spec :: ops =>
    applyDVSPlan defaults (current.map (fun c => remoteDVSState c spec)) ops

/-- The declared uplinks of the test configuration with a standby link. -/
def standbyLinkUplinks : DVSUplinks :=
  { uplinks := some ["tfup1", "tfup2"]
    active_uplinks := some ["tfup1"]
    standby_uplinks := some ["tfup2"] }

/-- The configuration of a switch that was created without declared
uplinks.  The uplink names are those the test case `modify uplinks` expects
after its first step; that all four are active is a sample value. -/
def defaultUplinksConfig : VMwareDVSConfigInfo :=
  { UplinkPortName := some ["uplink1", "uplink2", "uplink3", "uplink4"]
    ActiveUplinkPort := some ["uplink1", "uplink2", "uplink3", "uplink4"]
    StandbyUplinkPort := some [] }

/-- A switch declared without any uplink collection, as in the basic test
configuration. -/
def undeclaredUplinks : DVSUplinks :=
  { uplinks := none, active_uplinks := none, standby_uplinks := none }

/-- The uplinks of the test configuration, with both declared active in the
order opposite to the pool. -/
def reorderedUplinks : DVSUplinks :=
  { uplinks := some ["tfup1", "tfup2"]
    active_uplinks := some ["tfup2", "tfup1"]
    standby_uplinks := some [] }

/-- A declaration whose active uplink is not in the declared pool. -/
def outsidePoolUplinks : DVSUplinks :=
  { uplinks := some ["tfup1"]
    active_uplinks := some ["tfup2"]
    standby_uplinks := some [] }

/-! ## Distributed switch: the trunk VLAN range check -/

/-- A `types.NumericRange` of a trunk VLAN spec.  The Go fields are `int32`;
the check only compares them, so they are integers here. -/
structure NumericRange where
  Start : Int
  End : Int
  deriving DecidableEq, Repr

/-- Translation of `testAccResourceVSphereDistributedVirtualSwitchHasVlanRange`
applied to the trunk ranges of the fetched properties.  The loop runs over all
ranges and raises `found` at each one whose bounds are `emin` and `emax`; the
result is nil when `found` is set, else an error, which is represented by
the values its message is formatted from. -/
def testAccResourceVSphereDistributedVirtualSwitchHasVlanRange (emin emax : Int)
    (ranges : List NumericRange) : Except (Int × Int × List NumericRange) Unit :=
  let found := ranges.foldl
    (fun found rng => if rng.Start == emin && rng.End == emax then true else found) false
  if !found then .error (emin, emax, ranges) else .ok ()

/-- The trunk ranges of the test configuration, in one order. -/
def trunkRanges : List NumericRange := [⟨1000, 1999⟩, ⟨3000, 3999⟩]

/-- The trunk ranges of the test configuration, in the other order. -/
def trunkRangesSwapped : List NumericRange := [⟨3000, 3999⟩, ⟨1000, 1999⟩]

/-! ## The resource schema -/

/-- The value types of `schema.ValueType`. -/
inductive ValueType where
  | TypeInvalid
  | TypeBool
  | TypeInt
  | TypeFloat
  | TypeString
  | TypeList
  | TypeMap
  | TypeSet
  deriving DecidableEq, Repr

/-- A value assigned to the `Default` field of a schema entry. -/
inductive DefaultValue where
  | bool (b : Bool)
  | str (s : String)
  | int (n : Int)
  deriving DecidableEq, Repr

/-- The fields of `schema.Schema` that `resourceVSphereHostVirtualSwitch`
reads or writes.  `Typ` is the Go field `Type`; `Default` is `none` while no
default is set. -/
structure Schema where
  Typ : ValueType
  Description : String
  Required : Bool
  ForceNew : Bool
  Default : Option DefaultValue
  deriving DecidableEq, Repr

/-- A `map[string]*schema.Schema`; each key has an entry of its own. -/
abbrev SchemaMap := String → Option Schema

/-- The statement `s[k].F = v`: the entry under `k` is rewritten by `f`.
Without an entry under `k` the Go statement dereferences a nil pointer and
panics, which is `none` here. -/
def SchemaMap.assign (s : SchemaMap) (k : String) (f : Schema → Schema) : Option SchemaMap :=
  match s k with
  | none => none
  | some e => some (fun k2 => if k2 = k then some (f e) else s k2)

/-- The map literal that `resourceVSphereHostVirtualSwitch` starts from:
the entries `name` and `host_system_id`. -/
def hostVirtualSwitchBaseSchema : SchemaMap := fun k =>
  if k = "name" then
    some
      { Typ := .TypeString
        Description := "The name of the virtual switch."
        Required := true
        ForceNew := true
        Default := none }
  else if k = "host_system_id" then
    some
      { Typ := .TypeString
        Description := "The managed object ID of the host to set the virtual switch up on."
        Required := true
        ForceNew := true
        Default := none }
  else none

/-- Translation of `resourceVSphereHostVirtualSwitch`, returning the `Schema`
field of the resource (its `Create`, `Read`, `Update` and `Delete` fields are
the four operations above).  `mergeSchema` and `schemaHostVirtualSwitchSpec`
have no body in the translated files and the constant
`hostNetworkPolicyNicTeamingPolicyModeLoadbalanceSrcID` has no declaration
there; they are parameters. -/
def resourceVSphereHostVirtualSwitch (mergeSchema : SchemaMap → SchemaMap → SchemaMap)
    (schemaHostVirtualSwitchSpec : SchemaMap)
    (hostNetworkPolicyNicTeamingPolicyModeLoadbalanceSrcID : DefaultValue) :
    Option SchemaMap :=
  let s0 := hostVirtualSwitchBaseSchema
  let s1 := mergeSchema s0 schemaHostVirtualSwitchSpec
  (s1.assign "active_nics" (fun e => { e with Required := true })).bind fun s2 =>
  (s2.assign "standby_nics" (fun e => { e with Required := true })).bind fun s3 =>
  (s3.assign "teaming_policy" (fun e =>
    { e with Default := some hostNetworkPolicyNicTeamingPolicyModeLoadbalanceSrcID })).bind
    fun s4 =>
  (s4.assign "check_beacon" (fun e => { e with Default := some (.bool false) })).bind fun s5 =>
  (s5.assign "notify_switches" (fun e => { e with Default := some (.bool true) })).bind
    fun s6 =>
  (s6.assign "failback" (fun e => { e with Default := some (.bool true) })).bind fun s7 =>
  (s7.assign "allow_promiscuous" (fun e => { e with Default := some (.bool false) })).bind
    fun s8 =>
  (s8.assign "allow_forged_transmits" (fun e => { e with Default := some (.bool true) })).bind
    fun s9 =>
  (s9.assign "allow_mac_changes" (fun e => { e with Default := some (.bool true) })).bind
    fun s10 =>
  s10.assign "shaping_enabled" (fun e => { e with Default := some (.bool false) })

/-- The keys whose entries `resourceVSphereHostVirtualSwitch` rewrites. -/
def rewrittenKeys : List String :=
  ["active_nics", "standby_nics", "teaming_policy", "check_beacon", "notify_switches",
    "failback", "allow_promiscuous", "allow_forged_transmits", "allow_mac_changes",
    "shaping_enabled"]

/-- The `Default` of the entry under a key; `none` without an entry. -/
def SchemaMap.defaultOf (s : SchemaMap) (k : String) : Option (Option DefaultValue) :=
  (s k).map (fun e => e.Default)

/-- The `Required` flag of the entry under a key; `none` without an entry. -/
def SchemaMap.requiredOf (s : SchemaMap) (k : String) : Option Bool :=
  (s k).map (fun e => e.Required)

/-- A sample entry: optional, of the given type, without default. -/
def sampleEntry (t : ValueType) : Schema :=
  { Typ := t, Description := "", Required := false, ForceNew := false, Default := none }

/-- A sample result of `schemaHostVirtualSwitchSpec`: an entry without
default for each key that the resource rewrites. -/
def sampleSwitchSpecSchema : SchemaMap := fun k =>
  if k = "active_nics" ∨ k = "standby_nics" then some (sampleEntry .TypeList)
  else if k = "teaming_policy" then some (sampleEntry .TypeString)
  else if rewrittenKeys.contains k then some (sampleEntry .TypeBool)
  else none

/-- A sample `mergeSchema`: the entries of the first map, then those of the
second. -/
def sampleMergeSchema (dst src : SchemaMap) : SchemaMap := fun k =>
  match dst k with
  | some e => some e
  | none => src k

/-! ## Further sample environments -/

/-- An environment in which the host resolves and every write succeeds, but
reading the switch back always fails with the given error. -/
def lookupFaultEnv (err : GoError) : Env Unit where
  saveHostVirtualSwitchID := saveHostVirtualSwitchID ':'
  virtualSwitchIDsFromResourceID := virtualSwitchIDsFromResourceID ':'
  expandHostVirtualSwitchSpec := expandHostVirtualSwitchSpec
  flattenHostVirtualSwitchSpec := flattenHostVirtualSwitchSpec
  hostNetworkSystemFromHostSystemID := fun w hsID => (.ok ⟨hsID⟩, w)
  hostVSwitchFromName := fun w _ _ => (.error err, w)
  AddVirtualSwitch := fun w _ _ _ => (none, w)
  UpdateVirtualSwitch := fun w _ _ _ => (none, w)
  RemoveVirtualSwitch := fun w _ _ => (none, w)

/-- An environment in which the host resolves, every write succeeds and the
switch is read back, but the flattener fails with the given error. -/
def flattenFaultEnv (err : GoError) : Env Unit where
  saveHostVirtualSwitchID := saveHostVirtualSwitchID ':'
  virtualSwitchIDsFromResourceID := virtualSwitchIDsFromResourceID ':'
  expandHostVirtualSwitchSpec := expandHostVirtualSwitchSpec
  flattenHostVirtualSwitchSpec := fun d _ => (d, some err)
  hostNetworkSystemFromHostSystemID := fun w hsID => (.ok ⟨hsID⟩, w)
  hostVSwitchFromName := fun w _ _ => (.ok ⟨expandHostVirtualSwitchSpec sampleData⟩, w)
  AddVirtualSwitch := fun w _ _ _ => (none, w)
  UpdateVirtualSwitch := fun w _ _ _ => (none, w)
  RemoveVirtualSwitch := fun w _ _ => (none, w)

/-- The sample resource after its configured name and host have been changed
while the persisted identity still names `vSwitchTest` on `host-10`. -/
def renamedData : ResourceData :=
  { sampleSaved with name := "vSwitchOther", host_system_id := "host-99" }

/-- Whether a remote call is addressed to the given host ID and switch name:
a host lookup by its host ID, a call on a switch by its name. -/
def Step.addresses (hsID name : String) : Step → Bool
  | .hostNetworkSystemFromHostSystemID h => h == hsID
  | .AddVirtualSwitch _ n _ => n == name
  | .UpdateVirtualSwitch _ n _ => n == name
  | .RemoveVirtualSwitch _ n => n == name
  | .hostVSwitchFromName _ n => n == name
  | _ => true

/-! ## Lemmas on splitting at the delimiter -/

theorem takeWhile_ne_append (delim : Char) (xs ys : List Char) (h : delim ∉ xs) :
    (xs ++ delim :: ys).takeWhile (· != delim) = xs := by
  induction xs with
  | nil => simp [List.takeWhile]
  | cons x xs ih =>
    have hx : x ≠ delim := fun e => h (by simp [e])
    have hxs : delim ∉ xs := fun e => h (by simp [e])
    have hb : (x != delim) = true := by simp [hx]
    simp [List.takeWhile_cons, hb, ih hxs]

theorem dropWhile_ne_append (delim : Char) (xs ys : List Char) (h : delim ∉ xs) :
    (xs ++ delim :: ys).dropWhile (· != delim) = delim :: ys := by
  induction xs with
  | nil => simp [List.dropWhile]
  | cons x xs ih =>
    have hx : x ≠ delim := fun e => h (by simp [e])
    have hxs : delim ∉ xs := fun e => h (by simp [e])
    have hb : (x != delim) = true := by simp [hx]
    simp [List.dropWhile_cons, hb, ih hxs]

theorem count_append_delim (delim : Char) (xs ys : List Char) (hx : delim ∉ xs)
    (hy : delim ∉ ys) : (xs ++ delim :: ys).count delim = 1 := by
  simp [List.count_append, List.count_cons, List.count_eq_zero_of_not_mem hx,
    List.count_eq_zero_of_not_mem hy]

theorem decode_joined (delim : Char) (hostRef name : String)
    (hv : ValidHostScoped delim hostRef name) :
    Decode delim (String.mk (hostRef.data ++ delim :: name.data)) =
      .ok (.HostScoped hostRef name) := by
  obtain ⟨hh, hn⟩ := hv
  simp only [Decode, count_append_delim delim _ _ hh hn, takeWhile_ne_append delim _ _ hh,
    dropWhile_ne_append delim _ _ hh]
  simp

/-! ## Lemmas on the read path -/

theorem read_trace_no_write {σ : Type} (env : Env σ) (d : ResourceData) (w : σ) :
    (resourceVSphereHostVirtualSwitchRead env d w).trace.filter Step.isWrite = [] := by
  unfold resourceVSphereHostVirtualSwitchRead
  repeat' split
  all_goals simp [Step.isWrite]

theorem read_trace_no_update {σ : Type} (env : Env σ) (d : ResourceData) (w : σ) :
    (resourceVSphereHostVirtualSwitchRead env d w).trace.filter Step.isUpdate = [] := by
  unfold resourceVSphereHostVirtualSwitchRead
  repeat' split
  all_goals simp [Step.isUpdate]

theorem read_trace_no_add {σ : Type} (env : Env σ) (d : ResourceData) (w : σ) :
    (resourceVSphereHostVirtualSwitchRead env d w).trace.filter Step.isAdd = [] := by
  unfold resourceVSphereHostVirtualSwitchRead
  repeat' split
  all_goals simp [Step.isAdd]

/-! ## C1: identity round trip -/

/-- C1. For every delimiter and every host reference and switch name that
form a valid host-scoped identity, decoding the encoded identity gives the
identity back, and `virtualSwitchIDsFromResourceID` applied to the resource
data left by `saveHostVirtualSwitchID d hostRef name` returns exactly
`(hostRef, name)`. -/
theorem identity_round_trip (delim : Char) (d : ResourceData) (hostRef name : String)
    (hv : ValidHostScoped delim hostRef name) :
    (Encode delim (.HostScoped hostRef name)).bind (Decode delim) =
        .ok (.HostScoped hostRef name) ∧
      virtualSwitchIDsFromResourceID delim (saveHostVirtualSwitchID delim d hostRef name) =
        .ok (hostRef, name) := by
  have hdec := decode_joined delim hostRef name hv
  have henc : Encode delim (.HostScoped hostRef name) =
      .ok (String.mk (hostRef.data ++ delim :: name.data)) := by
    simp [Encode, hv.2]
  refine ⟨?_, ?_⟩
  · rw [henc]
    exact hdec
  · simp only [saveHostVirtualSwitchID, henc, virtualSwitchIDsFromResourceID,
      DecodeHostScoped, hdec]

/-- Witness for C1: the identity of switch `vSwitchTest` on `host-10`, with
the colon as delimiter. -/
theorem identity_round_trip_witness :
    ValidHostScoped ':' "host-10" "vSwitchTest" ∧
      (Encode ':' (.HostScoped "host-10" "vSwitchTest")).bind (Decode ':') =
        .ok (.HostScoped "host-10" "vSwitchTest") ∧
      virtualSwitchIDsFromResourceID ':'
          (saveHostVirtualSwitchID ':' sampleData "host-10" "vSwitchTest") =
        .ok ("host-10", "vSwitchTest") :=
  have hv : ValidHostScoped ':' "host-10" "vSwitchTest" := by
    unfold ValidHostScoped; decide
  ⟨hv, identity_round_trip ':' sampleData "host-10" "vSwitchTest" hv⟩

/-! ## C2: expand/flatten round trip -/

theorem reconstruct_of_sublist {pool members : List String} (hn : pool.Nodup)
    (hs : members.Sublist pool) : reconstructUplinks pool members = members := by
  unfold reconstructUplinks
  induction hs with
  | slnil => rfl
  | @cons l1 l2 x h ih =>
    have hx : x ∉ l2 := (List.nodup_cons.mp hn).1
    have hx1 : x ∉ l1 := fun hm => hx (h.subset hm)
    have hc : l1.contains x = false := by simpa using hx1
    rw [List.filter_cons, hc]
    exact ih (List.nodup_cons.mp hn).2
  | @cons₂ l1 l2 x h ih =>
    have hx : x ∉ l2 := (List.nodup_cons.mp hn).1
    have hc : (x :: l1).contains x = true := by simp
    rw [List.filter_cons, hc]
    have hcongr : l2.filter (fun n => (x :: l1).contains n) =
        l2.filter (fun n => l1.contains n) := by
      apply List.filter_congr
      intro n hn2
      have hne : n ≠ x := fun e => hx (e ▸ hn2)
      simp [hne]
    simp only [if_true, hcongr]
    rw [ih (List.nodup_cons.mp hn).2]

theorem eq_none_of_isSome_false {α : Type} {o : Option α} (h : o.isSome = false) :
    o = none := by
  cases o with
  | none => rfl
  | some v => cases h

theorem bind_populated {α β : Type} (c : Bool) (t : α) (f : α → Option β) (x : Option β)
    (hf : f t = x) (hnone : c = false → x = none) :
    (if c = true then some t else none).bind f = x := by
  cases c with
  | false => simp [hnone rfl]
  | true => simpa using hf

theorem flatten_expand_of_valid (m : DeclaredSwitch) (hvalid : m.Valid) :
    Flatten (Expand m) = m := by
  obtain ⟨pool, act, stb, pol, bea, noti, fb, prom, forg, mac, shap⟩ := m
  change UplinkSetValid (pool.getD []) (act.getD []) (stb.getD []) at hvalid
  obtain ⟨hn, ha, hs, _⟩ := hvalid
  have hact : act.map (reconstructUplinks (pool.getD [])) = act := by
    cases act with
    | none => rfl
    | some a =>
      simp only [Option.getD_some] at ha
      simp [reconstruct_of_sublist hn ha]
  have hstb : stb.map (reconstructUplinks (pool.getD [])) = stb := by
    cases stb with
    | none => rfl
    | some a =>
      simp only [Option.getD_some] at hs
      simp [reconstruct_of_sublist hn hs]
  have e1 := bind_populated (pol.isSome || bea.isSome || noti.isSome || fb.isSome ||
      act.isSome || stb.isSome) (NicTeamingPolicy.mk pol bea noti fb act stb)
    (fun t => t.activeNic) act rfl (fun h => by
      simp only [Bool.or_eq_false_iff] at h
      exact eq_none_of_isSome_false h.1.2)
  have e2 := bind_populated (pol.isSome || bea.isSome || noti.isSome || fb.isSome ||
      act.isSome || stb.isSome) (NicTeamingPolicy.mk pol bea noti fb act stb)
    (fun t => t.standbyNic) stb rfl (fun h => by
      simp only [Bool.or_eq_false_iff] at h
      exact eq_none_of_isSome_false h.2)
  have e3 := bind_populated (pol.isSome || bea.isSome || noti.isSome || fb.isSome ||
      act.isSome || stb.isSome) (NicTeamingPolicy.mk pol bea noti fb act stb)
    (fun t => t.policy) pol rfl (fun h => by
      simp only [Bool.or_eq_false_iff] at h
      exact eq_none_of_isSome_false h.1.1.1.1.1)
  have e4 := bind_populated (pol.isSome || bea.isSome || noti.isSome || fb.isSome ||
      act.isSome || stb.isSome) (NicTeamingPolicy.mk pol bea noti fb act stb)
    (fun t => t.beaconProbing) bea rfl (fun h => by
      simp only [Bool.or_eq_false_iff] at h
      exact eq_none_of_isSome_false h.1.1.1.1.2)
  have e5 := bind_populated (pol.isSome || bea.isSome || noti.isSome || fb.isSome ||
      act.isSome || stb.isSome) (NicTeamingPolicy.mk pol bea noti fb act stb)
    (fun t => t.notifySwitches) noti rfl (fun h => by
      simp only [Bool.or_eq_false_iff] at h
      exact eq_none_of_isSome_false h.1.1.1.2)
  have e6 := bind_populated (pol.isSome || bea.isSome || noti.isSome || fb.isSome ||
      act.isSome || stb.isSome) (NicTeamingPolicy.mk pol bea noti fb act stb)
    (fun t => t.rollingFailback) fb rfl (fun h => by
      simp only [Bool.or_eq_false_iff] at h
      exact eq_none_of_isSome_false h.1.1.2)
  have e7 := bind_populated (prom.isSome || forg.isSome || mac.isSome)
    (SecurityPolicy.mk prom forg mac) (fun p => p.allowPromiscuous) prom rfl (fun h => by
      simp only [Bool.or_eq_false_iff] at h
      exact eq_none_of_isSome_false h.1.1)
  have e8 := bind_populated (prom.isSome || forg.isSome || mac.isSome)
    (SecurityPolicy.mk prom forg mac) (fun p => p.forgedTransmits) forg rfl (fun h => by
      simp only [Bool.or_eq_false_iff] at h
      exact eq_none_of_isSome_false h.1.2)
  have e9 := bind_populated (prom.isSome || forg.isSome || mac.isSome)
    (SecurityPolicy.mk prom forg mac) (fun p => p.macChanges) mac rfl (fun h => by
      simp only [Bool.or_eq_false_iff] at h
      exact eq_none_of_isSome_false h.2)
  have e10 := bind_populated shap.isSome (TrafficShapingPolicy.mk shap)
    (fun p => p.enabled) shap rfl eq_none_of_isSome_false
  simp only [Flatten, Expand]
  rw [e1, e2, e3, e4, e5, e6, e7, e8, e9, e10, hact, hstb]

theorem flatten_remote_of_supplied (defaults : RemoteDefaults) (m : DeclaredSwitch)
    (hvalid : m.Valid) (hsup : m.Supplied = true) :
    Flatten (remoteCurrentState defaults (Expand m)) = m := by
  obtain ⟨pool, act, stb, pol, bea, noti, fb, prom, forg, mac, shap⟩ := m
  change UplinkSetValid (pool.getD []) (act.getD []) (stb.getD []) at hvalid
  obtain ⟨hn, ha, hs, _⟩ := hvalid
  simp only [DeclaredSwitch.Supplied, Bool.and_eq_true, Option.isSome_iff_exists] at hsup
  obtain ⟨⟨⟨⟨⟨⟨⟨⟨⟨⟨⟨pool, rfl⟩, ⟨act, rfl⟩⟩, ⟨stb, rfl⟩⟩, ⟨pol, rfl⟩⟩, ⟨bea, rfl⟩⟩,
    ⟨noti, rfl⟩⟩, ⟨fb, rfl⟩⟩, ⟨prom, rfl⟩⟩, ⟨forg, rfl⟩⟩, ⟨mac, rfl⟩⟩, ⟨shap, rfl⟩⟩ := hsup
  simp only [Option.getD_some] at hn ha hs
  simp [Flatten, Expand, remoteCurrentState, reconstruct_of_sublist hn ha,
    reconstruct_of_sublist hn hs]

/-- C2. For every valid declarative model, flattening the expanded spec
gives the model back, and when the model does not rely on remote-side
defaults (every field supplied) so does flattening the current state that
the remote platform reports for the expanded spec.  For the host-local
switch: when the model that `d` holds is valid, applying
`flattenHostVirtualSwitchSpec` to the spec returned by
`expandHostVirtualSwitchSpec d` raises no error and leaves `d` as it was,
and applied to any other resource data `d0` it gives every switch-spec field
the value it has in `d`. -/
theorem expand_flatten_round_trip (defaults : RemoteDefaults) (m : DeclaredSwitch)
    (d0 d : ResourceData) (hvalid : m.Valid) (hsup : m.Supplied = true)
    (hd : d.declared.Valid) :
    Flatten (Expand m) = m ∧
      Flatten (remoteCurrentState defaults (Expand m)) = m ∧
      flattenHostVirtualSwitchSpec d (expandHostVirtualSwitchSpec d) = (d, none) ∧
      (flattenHostVirtualSwitchSpec d0 (expandHostVirtualSwitchSpec d)).1.specFields =
        d.specFields ∧
      (flattenHostVirtualSwitchSpec d0 (expandHostVirtualSwitchSpec d)).2 = none := by
  have hfd := flatten_expand_of_valid d.declared hd
  refine ⟨flatten_expand_of_valid m hvalid, flatten_remote_of_supplied defaults m hvalid hsup,
    ?_, ?_, rfl⟩
  · simp only [flattenHostVirtualSwitchSpec, expandHostVirtualSwitchSpec, hfd]
    rfl
  · simp only [flattenHostVirtualSwitchSpec, expandHostVirtualSwitchSpec, hfd]
    rfl

/-- Witness for C2: the sample switch, whose model is valid and fully
supplied, against sample remote-side defaults and flattened into the
resource data of another declaration. -/
theorem expand_flatten_round_trip_witness :
    sampleData.declared.Valid ∧ sampleData.declared.Supplied = true ∧
      Flatten (Expand sampleData.declared) = sampleData.declared ∧
      Flatten (remoteCurrentState sampleDefaults (Expand sampleData.declared)) =
        sampleData.declared ∧
      flattenHostVirtualSwitchSpec sampleData (expandHostVirtualSwitchSpec sampleData) =
        (sampleData, none) ∧
      (flattenHostVirtualSwitchSpec outsideData
          (expandHostVirtualSwitchSpec sampleData)).1.specFields = sampleData.specFields ∧
      (flattenHostVirtualSwitchSpec outsideData (expandHostVirtualSwitchSpec sampleData)).2 =
        none :=
  ⟨by decide, by decide,
    expand_flatten_round_trip sampleDefaults sampleData.declared outsideData sampleData
      (by decide) (by decide) (by decide)⟩

/-- The round trip needs a valid model: for the sample switch declared with
an active adapter outside the pool, the flattener drops that adapter. -/
theorem round_trip_drops_name_outside_pool :
    outsideData.active_nics = ["vmnic9"] ∧
      (flattenHostVirtualSwitchSpec outsideData
        (expandHostVirtualSwitchSpec outsideData)).1.active_nics = [] := by
  decide

/-- The round trip through the remote platform needs every field supplied:
for the sample model with the teaming mode left unset, the flattened current
state holds the remote-side default in its place. -/
theorem round_trip_reads_remote_default :
    ({ sampleData.declared with teaming_policy := none } : DeclaredSwitch).Valid ∧
      Flatten (Expand { sampleData.declared with teaming_policy := none }) =
        { sampleData.declared with teaming_policy := none } ∧
      (Flatten (remoteCurrentState sampleDefaults
        (Expand { sampleData.declared with teaming_policy := none }))).teaming_policy =
        some sampleDefaults.policy := by
  decide

/-! ## C3: update is one whole-spec write -/

/-- C3. For every update in which the identity decodes to `(hsID, name)` and
the host network system loads as `ns`, the remote writes issued by
`resourceVSphereHostVirtualSwitchUpdate` are exactly one `UpdateVirtualSwitch`
call, made on `ns` for `name` and carrying the complete spec returned by
`expandHostVirtualSwitchSpec d`. -/
theorem update_issues_one_full_spec_write {σ : Type} (env : Env σ) (d : ResourceData)
    (w w1 : σ) (hsID name : String) (ns : HostNetworkSystem)
    (hdec : env.virtualSwitchIDsFromResourceID d = .ok (hsID, name))
    (hns : env.hostNetworkSystemFromHostSystemID w hsID = (.ok ns, w1)) :
    (resourceVSphereHostVirtualSwitchUpdate env d w).trace.filter Step.isWrite =
      [.UpdateVirtualSwitch ns name (env.expandHostVirtualSwitchSpec d)] := by
  unfold resourceVSphereHostVirtualSwitchUpdate
  simp only [hdec, hns]
  split
  · simp [Step.isWrite]
  · simp [Outcome.after, Step.isWrite, read_trace_no_write]

/-- Witness for C3: updating the sample switch in a world that holds it. -/
theorem update_issues_one_full_spec_write_witness :
    (resourceVSphereHostVirtualSwitchUpdate sampleEnv sampleSaved syncedWorld).trace.filter
        Step.isWrite =
      [.UpdateVirtualSwitch ⟨"host-10"⟩ "vSwitchTest"
        (sampleEnv.expandHostVirtualSwitchSpec sampleSaved)] :=
  update_issues_one_full_spec_write sampleEnv sampleSaved syncedWorld syncedWorld
    "host-10" "vSwitchTest" ⟨"host-10"⟩ (by decide) (by decide)

/-! ## C4: update with no difference -/

/-- C4, as stated, fails: the sample resource equals the flattened current
state of the sample switch, yet `resourceVSphereHostVirtualSwitchUpdate`
issues an `UpdateVirtualSwitch` call. -/
theorem update_zero_diff_still_writes :
    sampleEnv.hostVSwitchFromName syncedWorld ⟨"host-10"⟩ "vSwitchTest" =
        (.ok ⟨expandHostVirtualSwitchSpec sampleData⟩, syncedWorld) ∧
      sampleEnv.flattenHostVirtualSwitchSpec sampleSaved
          (expandHostVirtualSwitchSpec sampleData) = (sampleSaved, none) ∧
      (resourceVSphereHostVirtualSwitchUpdate sampleEnv sampleSaved syncedWorld).trace.filter
          Step.isRemote =
        [.hostNetworkSystemFromHostSystemID "host-10",
          .UpdateVirtualSwitch ⟨"host-10"⟩ "vSwitchTest"
            (expandHostVirtualSwitchSpec sampleData),
          .hostNetworkSystemFromHostSystemID "host-10",
          .hostVSwitchFromName ⟨"host-10"⟩ "vSwitchTest"] := by
  decide

/-- C4, amended. For every update in which the identity decodes and the host
network system loads, also when the declared model equals the flattened
current state of the switch, `resourceVSphereHostVirtualSwitchUpdate` makes
exactly one `UpdateVirtualSwitch` call with the expanded spec. -/
theorem update_writes_on_zero_diff {σ : Type} (env : Env σ) (d : ResourceData)
    (w w1 w2 : σ) (hsID name : String) (ns : HostNetworkSystem) (sw : HostVirtualSwitch)
    (hdec : env.virtualSwitchIDsFromResourceID d = .ok (hsID, name))
    (hns : env.hostNetworkSystemFromHostSystemID w hsID = (.ok ns, w1))
    (_hcur : env.hostVSwitchFromName w1 ns name = (.ok sw, w2))
    (_hsame : env.flattenHostVirtualSwitchSpec d sw.Spec = (d, none)) :
    (resourceVSphereHostVirtualSwitchUpdate env d w).trace.filter Step.isUpdate =
      [.UpdateVirtualSwitch ns name (env.expandHostVirtualSwitchSpec d)] := by
  unfold resourceVSphereHostVirtualSwitchUpdate
  simp only [hdec, hns]
  split
  · simp [Step.isUpdate]
  · simp [Outcome.after, Step.isUpdate, read_trace_no_update]

/-- Witness for amended C4: the sample resource, in sync with the world. -/
theorem update_writes_on_zero_diff_witness :
    (resourceVSphereHostVirtualSwitchUpdate sampleEnv sampleSaved syncedWorld).trace.filter
        Step.isUpdate =
      [.UpdateVirtualSwitch ⟨"host-10"⟩ "vSwitchTest"
        (sampleEnv.expandHostVirtualSwitchSpec sampleSaved)] :=
  update_writes_on_zero_diff sampleEnv sampleSaved syncedWorld syncedWorld syncedWorld
    "host-10" "vSwitchTest" ⟨"host-10"⟩ ⟨expandHostVirtualSwitchSpec sampleData⟩
    (by decide) (by decide) (by decide) (by decide)

/-! ## C5: not-found on delete -/

/-- C5, as stated, fails: deleting the sample switch from a world that does
not hold it makes `RemoveVirtualSwitch` fail with a not-found fault, and
`resourceVSphereHostVirtualSwitchDelete` returns an error, not nil. -/
theorem delete_not_found_is_error :
    sampleEnv.RemoveVirtualSwitch emptyWorld ⟨"host-10"⟩ "vSwitchTest" =
        (some (.fault .notFound "virtual switch not found"), emptyWorld) ∧
      (resourceVSphereHostVirtualSwitchDelete sampleEnv sampleSaved emptyWorld).err =
        some (.errorf "error deleting host vSwitch: virtual switch not found") := by
  decide

/-- C5, amended. For every delete in which the identity decodes and the host
network system loads, a failing `RemoveVirtualSwitch` call, whatever its
fault, makes `resourceVSphereHostVirtualSwitchDelete` return the error
`error deleting host vSwitch: ` followed by the message of the fault; nil is
returned only when `RemoveVirtualSwitch` returned nil. -/
theorem delete_remove_failure_is_error {σ : Type} (env : Env σ) (d : ResourceData)
    (w w1 : σ) (hsID name : String) (ns : HostNetworkSystem)
    (hdec : env.virtualSwitchIDsFromResourceID d = .ok (hsID, name))
    (hns : env.hostNetworkSystemFromHostSystemID w hsID = (.ok ns, w1)) :
    (∀ err, (env.RemoveVirtualSwitch w1 ns name).1 = some err →
        (resourceVSphereHostVirtualSwitchDelete env d w).err =
          some (.errorf ("error deleting host vSwitch: " ++ err.Error))) ∧
      ((resourceVSphereHostVirtualSwitchDelete env d w).err = none ↔
        (env.RemoveVirtualSwitch w1 ns name).1 = none) := by
  unfold resourceVSphereHostVirtualSwitchDelete
  simp only [hdec, hns]
  split <;> rename_i h <;> simp [h, fmtErrorf]

/-- Witness for amended C5: the not-found delete of the sample switch. -/
theorem delete_remove_failure_is_error_witness :
    (resourceVSphereHostVirtualSwitchDelete sampleEnv sampleSaved emptyWorld).err =
      some (.errorf ("error deleting host vSwitch: " ++
        (GoError.fault .notFound "virtual switch not found").Error)) :=
  (delete_remove_failure_is_error sampleEnv sampleSaved emptyWorld emptyWorld
    "host-10" "vSwitchTest" ⟨"host-10"⟩ (by decide) (by decide)).1
    (.fault .notFound "virtual switch not found") (by decide)

/-! ## C6: fixed order, halt at the first failure -/

/-- C6. Create and Update run their steps in a fixed order and stop at the
first failure.  When loading the host network system fails, the operation
returns the error `error loading host network system: ...` and its trace
ends with the lookup, so no `AddVirtualSwitch` or `UpdateVirtualSwitch` call
is made.  When the `AddVirtualSwitch` or `UpdateVirtualSwitch` call fails,
the operation returns the error of that step and its trace ends with that
call, so no read or flatten follows; the resource data is unchanged. -/
theorem create_update_halt_at_first_failure {σ : Type} (env : Env σ) (d : ResourceData)
    (w : σ) :
    (∀ err w1, env.hostNetworkSystemFromHostSystemID w d.host_system_id = (.error err, w1) →
        (resourceVSphereHostVirtualSwitchCreate env d w).err =
            some (fmtErrorf "error loading host network system: " err) ∧
          (resourceVSphereHostVirtualSwitchCreate env d w).trace =
            [.hostNetworkSystemFromHostSystemID d.host_system_id] ∧
          (resourceVSphereHostVirtualSwitchCreate env d w).d = d) ∧
      (∀ ns w1 err w2,
        env.hostNetworkSystemFromHostSystemID w d.host_system_id = (.ok ns, w1) →
        env.AddVirtualSwitch w1 ns d.name (env.expandHostVirtualSwitchSpec d) =
          (some err, w2) →
        (resourceVSphereHostVirtualSwitchCreate env d w).err =
            some (fmtErrorf "error adding host vSwitch: " err) ∧
          (resourceVSphereHostVirtualSwitchCreate env d w).trace =
            [.hostNetworkSystemFromHostSystemID d.host_system_id,
              .expandHostVirtualSwitchSpec,
              .AddVirtualSwitch ns d.name (env.expandHostVirtualSwitchSpec d)] ∧
          (resourceVSphereHostVirtualSwitchCreate env d w).d = d) ∧
      (∀ hsID name err w1, env.virtualSwitchIDsFromResourceID d = .ok (hsID, name) →
        env.hostNetworkSystemFromHostSystemID w hsID = (.error err, w1) →
        (resourceVSphereHostVirtualSwitchUpdate env d w).err =
            some (fmtErrorf "error loading host network system: " err) ∧
          (resourceVSphereHostVirtualSwitchUpdate env d w).trace =
            [.virtualSwitchIDsFromResourceID, .hostNetworkSystemFromHostSystemID hsID] ∧
          (resourceVSphereHostVirtualSwitchUpdate env d w).d = d) ∧
      (∀ hsID name ns w1 err w2, env.virtualSwitchIDsFromResourceID d = .ok (hsID, name) →
        env.hostNetworkSystemFromHostSystemID w hsID = (.ok ns, w1) →
        env.UpdateVirtualSwitch w1 ns name (env.expandHostVirtualSwitchSpec d) =
          (some err, w2) →
        (resourceVSphereHostVirtualSwitchUpdate env d w).err =
            some (fmtErrorf "error updating host vSwitch: " err) ∧
          (resourceVSphereHostVirtualSwitchUpdate env d w).trace =
            [.virtualSwitchIDsFromResourceID, .hostNetworkSystemFromHostSystemID hsID,
              .expandHostVirtualSwitchSpec,
              .UpdateVirtualSwitch ns name (env.expandHostVirtualSwitchSpec d)] ∧
          (resourceVSphereHostVirtualSwitchUpdate env d w).d = d) := by
  refine ⟨?_, ?_, ?_, ?_⟩
  · intro err w1 h
    simp [resourceVSphereHostVirtualSwitchCreate, h]
  · intro ns w1 err w2 h1 h2
    simp [resourceVSphereHostVirtualSwitchCreate, h1, h2]
  · intro hsID name err w1 h0 h1
    simp [resourceVSphereHostVirtualSwitchUpdate, h0, h1]
  · intro hsID name ns w1 err w2 h0 h1 h2
    simp [resourceVSphereHostVirtualSwitchUpdate, h0, h1, h2]

/-- Witness for C6: Create and Update of the sample switch where no host
resolves, Create where the switch already exists, and Update where the
switch is missing. -/
theorem create_update_halt_at_first_failure_witness :
    (resourceVSphereHostVirtualSwitchCreate sampleEnv sampleData noHostWorld).trace =
        [.hostNetworkSystemFromHostSystemID "host-10"] ∧
      (resourceVSphereHostVirtualSwitchCreate sampleEnv sampleData syncedWorld).trace =
        [.hostNetworkSystemFromHostSystemID "host-10", .expandHostVirtualSwitchSpec,
          .AddVirtualSwitch ⟨"host-10"⟩ "vSwitchTest"
            (expandHostVirtualSwitchSpec sampleData)] ∧
      (resourceVSphereHostVirtualSwitchUpdate sampleEnv sampleSaved noHostWorld).trace =
        [.virtualSwitchIDsFromResourceID, .hostNetworkSystemFromHostSystemID "host-10"] ∧
      (resourceVSphereHostVirtualSwitchUpdate sampleEnv sampleSaved emptyWorld).trace =
        [.virtualSwitchIDsFromResourceID, .hostNetworkSystemFromHostSystemID "host-10",
          .expandHostVirtualSwitchSpec,
          .UpdateVirtualSwitch ⟨"host-10"⟩ "vSwitchTest"
            (expandHostVirtualSwitchSpec sampleSaved)] :=
  ⟨((create_update_halt_at_first_failure sampleEnv sampleData noHostWorld).1
      (.fault .notFound "host not found") noHostWorld (by decide)).2.1,
    ((create_update_halt_at_first_failure sampleEnv sampleData syncedWorld).2.1
      ⟨"host-10"⟩ syncedWorld (.fault .conflict "virtual switch already exists")
      syncedWorld (by decide) (by decide)).2.1,
    ((create_update_halt_at_first_failure sampleEnv sampleSaved noHostWorld).2.2.1
      "host-10" "vSwitchTest" (.fault .notFound "host not found") noHostWorld
      (by decide) (by decide)).2.1,
    ((create_update_halt_at_first_failure sampleEnv sampleSaved emptyWorld).2.2.2
      "host-10" "vSwitchTest" ⟨"host-10"⟩ emptyWorld
      (.fault .notFound "virtual switch not found") emptyWorld
      (by decide) (by decide) (by decide)).2.1⟩

/-! ## C7: what reaches the caller when a remote write fails -/

/-- C7, as stated, fails: creating the sample switch where it already exists
makes `AddVirtualSwitch` fail with a conflict fault; the error that
`resourceVSphereHostVirtualSwitchCreate` returns is not that fault value but
a new message-only error, and its category is gone. -/
theorem add_fault_not_preserved :
    sampleEnv.AddVirtualSwitch syncedWorld ⟨"host-10"⟩ "vSwitchTest"
        (expandHostVirtualSwitchSpec sampleData) =
        (some (.fault .conflict "virtual switch already exists"), syncedWorld) ∧
      (resourceVSphereHostVirtualSwitchCreate sampleEnv sampleData syncedWorld).err ≠
        some (.fault .conflict "virtual switch already exists") ∧
      (resourceVSphereHostVirtualSwitchCreate sampleEnv sampleData syncedWorld).err =
        some (.errorf "error adding host vSwitch: virtual switch already exists") ∧
      (GoError.fault .conflict "virtual switch already exists").kind? = some .conflict ∧
      (resourceVSphereHostVirtualSwitchCreate sampleEnv sampleData syncedWorld).err.bind
        GoError.kind? = none := by
  decide

/-- C7, amended. Every failure of the remote write made by Create, Update or
Delete reaches the caller as a new error built by `fmt.Errorf`: its message
is the operation text (`error adding host vSwitch: `, `error updating host
vSwitch: `, `error deleting host vSwitch: `) followed by the message of the
original fault, and it carries no fault category. -/
theorem write_failure_is_rewrapped {σ : Type} (env : Env σ) (d : ResourceData) (w : σ) :
    (∀ ns w1 err w2,
        env.hostNetworkSystemFromHostSystemID w d.host_system_id = (.ok ns, w1) →
        env.AddVirtualSwitch w1 ns d.name (env.expandHostVirtualSwitchSpec d) =
          (some err, w2) →
        (resourceVSphereHostVirtualSwitchCreate env d w).err =
          some (.errorf ("error adding host vSwitch: " ++ err.Error))) ∧
      (∀ hsID name ns w1 err w2, env.virtualSwitchIDsFromResourceID d = .ok (hsID, name) →
        env.hostNetworkSystemFromHostSystemID w hsID = (.ok ns, w1) →
        env.UpdateVirtualSwitch w1 ns name (env.expandHostVirtualSwitchSpec d) =
          (some err, w2) →
        (resourceVSphereHostVirtualSwitchUpdate env d w).err =
          some (.errorf ("error updating host vSwitch: " ++ err.Error))) ∧
      (∀ hsID name ns w1 err w2, env.virtualSwitchIDsFromResourceID d = .ok (hsID, name) →
        env.hostNetworkSystemFromHostSystemID w hsID = (.ok ns, w1) →
        env.RemoveVirtualSwitch w1 ns name = (some err, w2) →
        (resourceVSphereHostVirtualSwitchDelete env d w).err =
          some (.errorf ("error deleting host vSwitch: " ++ err.Error))) := by
  refine ⟨?_, ?_, ?_⟩
  · intro ns w1 err w2 h1 h2
    simp [resourceVSphereHostVirtualSwitchCreate, h1, h2, fmtErrorf]
  · intro hsID name ns w1 err w2 h0 h1 h2
    simp [resourceVSphereHostVirtualSwitchUpdate, h0, h1, h2, fmtErrorf]
  · intro hsID name ns w1 err w2 h0 h1 h2
    simp [resourceVSphereHostVirtualSwitchDelete, h0, h1, h2, fmtErrorf]

/-- Witness for amended C7: a conflict on Create, and a missing switch on
Update and on Delete. -/
theorem write_failure_is_rewrapped_witness :
    (resourceVSphereHostVirtualSwitchCreate sampleEnv sampleData syncedWorld).err =
        some (.errorf ("error adding host vSwitch: " ++
          (GoError.fault .conflict "virtual switch already exists").Error)) ∧
      (resourceVSphereHostVirtualSwitchUpdate sampleEnv sampleSaved emptyWorld).err =
        some (.errorf ("error updating host vSwitch: " ++
          (GoError.fault .notFound "virtual switch not found").Error)) ∧
      (resourceVSphereHostVirtualSwitchDelete sampleEnv sampleSaved emptyWorld).err =
        some (.errorf ("error deleting host vSwitch: " ++
          (GoError.fault .notFound "virtual switch not found").Error)) :=
  ⟨(write_failure_is_rewrapped sampleEnv sampleData syncedWorld).1
      ⟨"host-10"⟩ syncedWorld (.fault .conflict "virtual switch already exists")
      syncedWorld (by decide) (by decide),
    (write_failure_is_rewrapped sampleEnv sampleSaved emptyWorld).2.1
      "host-10" "vSwitchTest" ⟨"host-10"⟩ emptyWorld
      (.fault .notFound "virtual switch not found") emptyWorld
      (by decide) (by decide) (by decide),
    (write_failure_is_rewrapped sampleEnv sampleSaved emptyWorld).2.2
      "host-10" "vSwitchTest" ⟨"host-10"⟩ emptyWorld
      (.fault .notFound "virtual switch not found") emptyWorld
      (by decide) (by decide) (by decide)⟩

/-! ## C8: the uplink invariant and the host-local expander -/

/-- C8, as stated, fails: the sample switch declared with `vmnic0` both
active and standby, and the one declared with an active adapter outside the
pool, break the uplink invariant, yet Create obtains a spec from the
expander and sends it with `AddVirtualSwitch`, returning nil. -/
theorem create_sends_invalid_uplinks :
    overlapData.uplinksValid = false ∧ outsideData.uplinksValid = false ∧
      (resourceVSphereHostVirtualSwitchCreate sampleEnv overlapData emptyWorld).err = none ∧
      (resourceVSphereHostVirtualSwitchCreate sampleEnv overlapData emptyWorld).trace.filter
          Step.isWrite =
        [.AddVirtualSwitch ⟨"host-10"⟩ "vSwitchTest"
          (expandHostVirtualSwitchSpec overlapData)] ∧
      (resourceVSphereHostVirtualSwitchCreate sampleEnv outsideData emptyWorld).err = none ∧
      (resourceVSphereHostVirtualSwitchCreate sampleEnv outsideData emptyWorld).trace.filter
          Step.isWrite =
        [.AddVirtualSwitch ⟨"host-10"⟩ "vSwitchTest"
          (expandHostVirtualSwitchSpec outsideData)] := by
  decide

/-- C8, amended. For every declared model that breaks the uplink invariant,
the expander still returns a spec, having no error result, and once the host
network system has loaded Create sends that spec with `AddVirtualSwitch` and
Update sends it with `UpdateVirtualSwitch`. -/
theorem invalid_uplinks_are_sent {σ : Type} (env : Env σ) (d : ResourceData) (w w1 : σ)
    (ns : HostNetworkSystem) (_hbad : d.uplinksValid = false) :
    (env.hostNetworkSystemFromHostSystemID w d.host_system_id = (.ok ns, w1) →
        (resourceVSphereHostVirtualSwitchCreate env d w).trace.filter Step.isAdd =
          [.AddVirtualSwitch ns d.name (env.expandHostVirtualSwitchSpec d)]) ∧
      (∀ hsID name, env.virtualSwitchIDsFromResourceID d = .ok (hsID, name) →
        env.hostNetworkSystemFromHostSystemID w hsID = (.ok ns, w1) →
        (resourceVSphereHostVirtualSwitchUpdate env d w).trace.filter Step.isUpdate =
          [.UpdateVirtualSwitch ns name (env.expandHostVirtualSwitchSpec d)]) := by
  refine ⟨?_, ?_⟩
  · intro hns
    unfold resourceVSphereHostVirtualSwitchCreate
    simp only [hns]
    split
    · simp [Step.isAdd]
    · simp [Outcome.after, Step.isAdd, read_trace_no_add]
  · intro hsID name hdec hns
    unfold resourceVSphereHostVirtualSwitchUpdate
    simp only [hdec, hns]
    split
    · simp [Step.isUpdate]
    · simp [Outcome.after, Step.isUpdate, read_trace_no_update]

/-- Witness for amended C8: the overlapping declaration, on Create in a
world without the switch and on Update in a world that holds it. -/
theorem invalid_uplinks_are_sent_witness :
    overlapData.uplinksValid = false ∧
      (resourceVSphereHostVirtualSwitchCreate sampleEnv overlapData emptyWorld).trace.filter
          Step.isAdd =
        [.AddVirtualSwitch ⟨"host-10"⟩ overlapData.name
          (sampleEnv.expandHostVirtualSwitchSpec overlapData)] ∧
      (resourceVSphereHostVirtualSwitchUpdate sampleEnv
          { overlapData with id := "host-10:vSwitchTest" } syncedWorld).trace.filter
          Step.isUpdate =
        [.UpdateVirtualSwitch ⟨"host-10"⟩ "vSwitchTest"
          (sampleEnv.expandHostVirtualSwitchSpec
            { overlapData with id := "host-10:vSwitchTest" })] :=
  ⟨by decide,
    (invalid_uplinks_are_sent sampleEnv overlapData emptyWorld emptyWorld ⟨"host-10"⟩
      (by decide)).1 (by decide),
    (invalid_uplinks_are_sent sampleEnv { overlapData with id := "host-10:vSwitchTest" }
      syncedWorld syncedWorld ⟨"host-10"⟩ (by decide)).2 "host-10" "vSwitchTest"
      (by decide) (by decide)⟩

/-! ## C9: what precedes expansion -/

/-- C9, as stated, fails: when the sample switch is created or updated, the
host network system lookup, a remote call, is made before the declared model
is expanded. -/
theorem lookup_precedes_expand :
    stepsBeforeExpand
        (resourceVSphereHostVirtualSwitchCreate sampleEnv sampleData emptyWorld).trace =
        [.hostNetworkSystemFromHostSystemID "host-10"] ∧
      (stepsBeforeExpand
        (resourceVSphereHostVirtualSwitchCreate sampleEnv sampleData emptyWorld).trace).any
          Step.isRemote = true ∧
      (stepsBeforeExpand
        (resourceVSphereHostVirtualSwitchUpdate sampleEnv sampleSaved syncedWorld).trace).any
          Step.isRemote = true := by
  decide

/-- C9, amended. In Create and Update no remote write is made before the
declared model is expanded, while the host network system lookup, a remote
read, does precede the expansion, preceded in Update by the decoding of the
identity.  When the lookup (or, in Update, the decoding) fails, the
operation ends there with that error, without expanding and without any
write; when it succeeds, the expansion is the next step and the write the
one after. -/
theorem no_write_before_expand {σ : Type} (env : Env σ) (d : ResourceData) (w : σ) :
    (stepsBeforeExpand (resourceVSphereHostVirtualSwitchCreate env d w).trace =
        [.hostNetworkSystemFromHostSystemID d.host_system_id]) ∧
      (stepsBeforeExpand (resourceVSphereHostVirtualSwitchCreate env d w).trace).all
          (fun s => !s.isWrite) = true ∧
      (stepsBeforeExpand (resourceVSphereHostVirtualSwitchUpdate env d w).trace).all
          (fun s => !s.isWrite) = true ∧
      (∀ err w1, env.hostNetworkSystemFromHostSystemID w d.host_system_id = (.error err, w1) →
        (resourceVSphereHostVirtualSwitchCreate env d w).trace =
            [.hostNetworkSystemFromHostSystemID d.host_system_id] ∧
          (resourceVSphereHostVirtualSwitchCreate env d w).err =
            some (fmtErrorf "error loading host network system: " err) ∧
          (resourceVSphereHostVirtualSwitchCreate env d w).world = w1) ∧
      (∀ ns w1, env.hostNetworkSystemFromHostSystemID w d.host_system_id = (.ok ns, w1) →
        (resourceVSphereHostVirtualSwitchCreate env d w).trace.take 3 =
          [.hostNetworkSystemFromHostSystemID d.host_system_id, .expandHostVirtualSwitchSpec,
            .AddVirtualSwitch ns d.name (env.expandHostVirtualSwitchSpec d)]) ∧
      (∀ err, env.virtualSwitchIDsFromResourceID d = .error err →
        (resourceVSphereHostVirtualSwitchUpdate env d w).trace =
            [.virtualSwitchIDsFromResourceID] ∧
          (resourceVSphereHostVirtualSwitchUpdate env d w).err = some err ∧
          (resourceVSphereHostVirtualSwitchUpdate env d w).world = w) ∧
      (∀ hsID name, env.virtualSwitchIDsFromResourceID d = .ok (hsID, name) →
        stepsBeforeExpand (resourceVSphereHostVirtualSwitchUpdate env d w).trace =
            [.virtualSwitchIDsFromResourceID, .hostNetworkSystemFromHostSystemID hsID] ∧
          (∀ err w1, env.hostNetworkSystemFromHostSystemID w hsID = (.error err, w1) →
            (resourceVSphereHostVirtualSwitchUpdate env d w).trace =
                [.virtualSwitchIDsFromResourceID, .hostNetworkSystemFromHostSystemID hsID] ∧
              (resourceVSphereHostVirtualSwitchUpdate env d w).err =
                some (fmtErrorf "error loading host network system: " err) ∧
              (resourceVSphereHostVirtualSwitchUpdate env d w).world = w1) ∧
          (∀ ns w1, env.hostNetworkSystemFromHostSystemID w hsID = (.ok ns, w1) →
            (resourceVSphereHostVirtualSwitchUpdate env d w).trace.take 4 =
              [.virtualSwitchIDsFromResourceID, .hostNetworkSystemFromHostSystemID hsID,
                .expandHostVirtualSwitchSpec,
                .UpdateVirtualSwitch ns name (env.expandHostVirtualSwitchSpec d)])) := by
  refine ⟨?_, ?_, ?_, ?_, ?_, ?_, ?_⟩
  · unfold resourceVSphereHostVirtualSwitchCreate stepsBeforeExpand
    rcases h : env.hostNetworkSystemFromHostSystemID w d.host_system_id with ⟨r, w1⟩
    cases r with
    | error err => simp [h, List.takeWhile_cons, Step.isExpand]
    | ok ns =>
      rcases h2 : env.AddVirtualSwitch w1 ns d.name (env.expandHostVirtualSwitchSpec d)
        with ⟨e, w2⟩
      cases e <;> simp [h, h2, Outcome.after, List.takeWhile_cons, Step.isExpand]
  · unfold resourceVSphereHostVirtualSwitchCreate stepsBeforeExpand
    rcases h : env.hostNetworkSystemFromHostSystemID w d.host_system_id with ⟨r, w1⟩
    cases r with
    | error err => simp [h, List.takeWhile_cons, Step.isExpand, Step.isWrite]
    | ok ns =>
      rcases h2 : env.AddVirtualSwitch w1 ns d.name (env.expandHostVirtualSwitchSpec d)
        with ⟨e, w2⟩
      cases e <;>
        simp [h, h2, Outcome.after, List.takeWhile_cons, Step.isExpand, Step.isWrite]
  · unfold resourceVSphereHostVirtualSwitchUpdate stepsBeforeExpand
    cases h0 : env.virtualSwitchIDsFromResourceID d with
    | error err => simp [List.takeWhile_cons, Step.isExpand, Step.isWrite]
    | ok p =>
      obtain ⟨hsID, name⟩ := p
      rcases h : env.hostNetworkSystemFromHostSystemID w hsID with ⟨r, w1⟩
      cases r with
      | error err => simp [h, List.takeWhile_cons, Step.isExpand, Step.isWrite]
      | ok ns =>
        rcases h2 : env.UpdateVirtualSwitch w1 ns name (env.expandHostVirtualSwitchSpec d)
          with ⟨e, w2⟩
        cases e <;>
          simp [h, h2, Outcome.after, List.takeWhile_cons, Step.isExpand, Step.isWrite]
  · intro err w1 h
    simp [resourceVSphereHostVirtualSwitchCreate, h]
  · intro ns w1 h
    unfold resourceVSphereHostVirtualSwitchCreate
    rcases h2 : env.AddVirtualSwitch w1 ns d.name (env.expandHostVirtualSwitchSpec d)
      with ⟨e, w2⟩
    cases e <;> simp [h, h2, Outcome.after]
  · intro err h0
    simp [resourceVSphereHostVirtualSwitchUpdate, h0]
  · intro hsID name h0
    refine ⟨?_, ?_, ?_⟩
    · unfold resourceVSphereHostVirtualSwitchUpdate stepsBeforeExpand
      rcases h : env.hostNetworkSystemFromHostSystemID w hsID with ⟨r, w1⟩
      cases r with
      | error err => simp [h0, h, List.takeWhile_cons, Step.isExpand]
      | ok ns =>
        rcases h2 : env.UpdateVirtualSwitch w1 ns name (env.expandHostVirtualSwitchSpec d)
          with ⟨e, w2⟩
        cases e <;> simp [h0, h, h2, Outcome.after, List.takeWhile_cons, Step.isExpand]
    · intro err w1 h
      simp [resourceVSphereHostVirtualSwitchUpdate, h0, h]
    · intro ns w1 h
      unfold resourceVSphereHostVirtualSwitchUpdate
      rcases h2 : env.UpdateVirtualSwitch w1 ns name (env.expandHostVirtualSwitchSpec d)
        with ⟨e, w2⟩
      cases e <;> simp [h0, h, h2, Outcome.after]

/-- Witness for amended C9: Create and Update of the sample switch where no
host resolves, Update with no identity stored, and Create and Update where
the host resolves. -/
theorem no_write_before_expand_witness :
    (resourceVSphereHostVirtualSwitchCreate sampleEnv sampleData noHostWorld).trace =
        [.hostNetworkSystemFromHostSystemID "host-10"] ∧
      (resourceVSphereHostVirtualSwitchCreate sampleEnv sampleData emptyWorld).trace.take 3 =
        [.hostNetworkSystemFromHostSystemID "host-10", .expandHostVirtualSwitchSpec,
          .AddVirtualSwitch ⟨"host-10"⟩ "vSwitchTest"
            (sampleEnv.expandHostVirtualSwitchSpec sampleData)] ∧
      (resourceVSphereHostVirtualSwitchUpdate sampleEnv sampleData syncedWorld).trace =
        [.virtualSwitchIDsFromResourceID] ∧
      (resourceVSphereHostVirtualSwitchUpdate sampleEnv sampleSaved noHostWorld).trace =
        [.virtualSwitchIDsFromResourceID, .hostNetworkSystemFromHostSystemID "host-10"] ∧
      (resourceVSphereHostVirtualSwitchUpdate sampleEnv sampleSaved syncedWorld).trace.take 4 =
        [.virtualSwitchIDsFromResourceID, .hostNetworkSystemFromHostSystemID "host-10",
          .expandHostVirtualSwitchSpec,
          .UpdateVirtualSwitch ⟨"host-10"⟩ "vSwitchTest"
            (sampleEnv.expandHostVirtualSwitchSpec sampleSaved)] :=
  ⟨((no_write_before_expand sampleEnv sampleData noHostWorld).2.2.2.1
      (.fault .notFound "host not found") noHostWorld (by decide)).1,
    (no_write_before_expand sampleEnv sampleData emptyWorld).2.2.2.2.1
      ⟨"host-10"⟩ emptyWorld (by decide),
    ((no_write_before_expand sampleEnv sampleData syncedWorld).2.2.2.2.2.1
      (.errorf "MalformedIdentity") (by decide)).1,
    (((no_write_before_expand sampleEnv sampleSaved noHostWorld).2.2.2.2.2.2
      "host-10" "vSwitchTest" (by decide)).2.1
      (.fault .notFound "host not found") noHostWorld (by decide)).1,
    ((no_write_before_expand sampleEnv sampleSaved syncedWorld).2.2.2.2.2.2
      "host-10" "vSwitchTest" (by decide)).2.2 ⟨"host-10"⟩ syncedWorld (by decide)⟩

/-! ## C10: uplink ordering of the distributed switch -/

theorem uplinkInvariant_of_valid {pool active standby : List String}
    (hv : UplinkSetValid pool active standby) :
    uplinkInvariant pool active standby = true := by
  obtain ⟨_, ha, hs, hd⟩ := hv
  simp only [uplinkInvariant, Bool.and_eq_true, List.all_eq_true]
  refine ⟨⟨fun n hn => ?_, fun n hn => ?_⟩, fun n hn => ?_⟩
  · simpa using ha.subset hn
  · simpa using hs.subset hn
  · simpa using hd n hn

theorem flatten_valid_state {pool active standby : List String}
    (hv : UplinkSetValid pool active standby) :
    flattenDVSUplinks ⟨some pool, some active, some standby⟩ =
      ⟨some pool, some active, some standby⟩ := by
  obtain ⟨hn, ha, hs, _⟩ := hv
  simp [flattenDVSUplinks, reconstruct_of_sublist hn ha, reconstruct_of_sublist hn hs]

/-- C10, as stated, fails.  With both uplinks of the test configuration
declared active in the order `tfup2`, `tfup1`, the expander accepts the
declaration and the created switch has that active list, but flattening it
gives the active list in the order of the pool, not the declared one.  And a
declaration whose active uplink is outside the pool has no expanded spec:
the expander rejects it. -/
theorem dvs_reordered_active_not_reproduced :
    expandDVSUplinks reorderedUplinks =
        .ok ⟨some ["tfup1", "tfup2"], some ⟨some ["tfup2", "tfup1"], some []⟩⟩ ∧
      (planDVSCreate reorderedUplinks).map (applyDVSPlan defaultUplinksConfig none) =
        .ok (some ⟨some ["tfup1", "tfup2"], some ["tfup2", "tfup1"], some []⟩) ∧
      (flattenDVSUplinks ⟨some ["tfup1", "tfup2"], some ["tfup2", "tfup1"],
        some []⟩).active_uplinks = some ["tfup1", "tfup2"] ∧
      flattenDVSUplinks ⟨some ["tfup1", "tfup2"], some ["tfup2", "tfup1"], some []⟩ ≠
        reorderedUplinks ∧
      expandDVSUplinks outsidePoolUplinks = .error .ValidationError := by
  decide

/-- C10, amended. For every distributed switch declared with uplink pool
`U`, active list `A` and standby list `S` that form a valid UplinkSet (no
name twice in `U`, `A` and `S` parts of `U` in its order, no name in both),
the expander accepts the declaration and the expanded spec has precedence
list exactly `U`, active list exactly `A` and standby list exactly `S`.  The
remote configuration then holds exactly these lists, so the three uplink
checks of the acceptance test pass and flattening reproduces the three
declared collections, both after a create and after an update of an existing
switch whose own uplinks form a valid UplinkSet, as the default uplinks
do. -/
theorem dvs_uplink_order_preserved (U A S U0 A0 S0 : List String)
    (defaults : VMwareDVSConfigInfo) (hv : UplinkSetValid U A S)
    (hcur : UplinkSetValid U0 A0 S0) :
    expandDVSUplinks ⟨some U, some A, some S⟩ = .ok ⟨some U, some ⟨some A, some S⟩⟩ ∧
      (planDVSCreate ⟨some U, some A, some S⟩).map (applyDVSPlan defaults none) =
        .ok (some ⟨some U, some A, some S⟩) ∧
      (planDVSUpdate ⟨some U0, some A0, some S0⟩ ⟨some U, some A, some S⟩).map
          (applyDVSPlan defaults (some ⟨some U0, some A0, some S0⟩)) =
        .ok (some ⟨some U, some A, some S⟩) ∧
      testAccResourceVSphereDistributedVirtualSwitchHasUplinks (some U)
        ⟨some U, some A, some S⟩ = .ok () ∧
      testAccResourceVSphereDistributedVirtualSwitchHasActiveUplinks (some A)
        ⟨some U, some A, some S⟩ = .ok () ∧
      testAccResourceVSphereDistributedVirtualSwitchHasStandbyUplinks (some S)
        ⟨some U, some A, some S⟩ = .ok () ∧
      flattenDVSUplinks ⟨some U, some A, some S⟩ = ⟨some U, some A, some S⟩ := by
  have hexp : expandDVSUplinks ⟨some U, some A, some S⟩ =
      .ok ⟨some U, some ⟨some A, some S⟩⟩ := by
    simp [expandDVSUplinks, uplinkInvariant_of_valid hv]
  refine ⟨hexp, ?_, ?_, ?_, ?_, ?_, flatten_valid_state hv⟩
  · simp [planDVSCreate, hexp, Except.map, applyDVSPlan, remoteDVSState]
  · unfold planDVSUpdate
    rw [flatten_valid_state hcur]
    by_cases hsame : (⟨some U0, some A0, some S0⟩ : DVSUplinks) = ⟨some U, some A, some S⟩
    · rw [if_pos hsame]
      simp only [DVSUplinks.mk.injEq, Option.some.injEq] at hsame
      obtain ⟨h1, h2, h3⟩ := hsame
      subst h1 h2 h3
      simp [Except.map, applyDVSPlan]
    · rw [if_neg hsame]
      simp [hexp, Except.map, applyDVSPlan, remoteDVSState]
  · simp [testAccResourceVSphereDistributedVirtualSwitchHasUplinks]
  · simp [testAccResourceVSphereDistributedVirtualSwitchHasActiveUplinks]
  · simp [testAccResourceVSphereDistributedVirtualSwitchHasStandbyUplinks]

/-- Witness for amended C10: the test configuration with uplinks `tfup1`,
`tfup2`, `tfup1` active and `tfup2` standby, created, and applied to a
switch with the default uplinks `uplink1` to `uplink4`. -/
theorem dvs_uplink_order_preserved_witness :
    UplinkSetValid ["tfup1", "tfup2"] ["tfup1"] ["tfup2"] ∧
      expandDVSUplinks standbyLinkUplinks =
        .ok ⟨some ["tfup1", "tfup2"], some ⟨some ["tfup1"], some ["tfup2"]⟩⟩ ∧
      (planDVSCreate standbyLinkUplinks).map (applyDVSPlan defaultUplinksConfig none) =
        .ok (some ⟨some ["tfup1", "tfup2"], some ["tfup1"], some ["tfup2"]⟩) ∧
      (planDVSUpdate defaultUplinksConfig standbyLinkUplinks).map
          (applyDVSPlan defaultUplinksConfig (some defaultUplinksConfig)) =
        .ok (some ⟨some ["tfup1", "tfup2"], some ["tfup1"], some ["tfup2"]⟩) ∧
      testAccResourceVSphereDistributedVirtualSwitchHasUplinks (some ["tfup1", "tfup2"])
        ⟨some ["tfup1", "tfup2"], some ["tfup1"], some ["tfup2"]⟩ = .ok () ∧
      testAccResourceVSphereDistributedVirtualSwitchHasActiveUplinks (some ["tfup1"])
        ⟨some ["tfup1", "tfup2"], some ["tfup1"], some ["tfup2"]⟩ = .ok () ∧
      testAccResourceVSphereDistributedVirtualSwitchHasStandbyUplinks (some ["tfup2"])
        ⟨some ["tfup1", "tfup2"], some ["tfup1"], some ["tfup2"]⟩ = .ok () ∧
      flattenDVSUplinks ⟨some ["tfup1", "tfup2"], some ["tfup1"], some ["tfup2"]⟩ =
        standbyLinkUplinks :=
  ⟨by decide,
    dvs_uplink_order_preserved ["tfup1", "tfup2"] ["tfup1"] ["tfup2"]
      ["uplink1", "uplink2", "uplink3", "uplink4"]
      ["uplink1", "uplink2", "uplink3", "uplink4"] [] defaultUplinksConfig
      (by decide) (by decide)⟩

/-- A switch declared without uplinks gets the remote-side defaults, as the
first step of the test case `modify uplinks` expects, and a nil slice is
told from an empty one by the uplink check. -/
theorem dvs_undeclared_uplinks_get_defaults :
    (planDVSCreate undeclaredUplinks).map (applyDVSPlan defaultUplinksConfig none) =
        .ok (some defaultUplinksConfig) ∧
      testAccResourceVSphereDistributedVirtualSwitchHasUplinks
        (some ["uplink1", "uplink2", "uplink3", "uplink4"]) defaultUplinksConfig = .ok () ∧
      testAccResourceVSphereDistributedVirtualSwitchHasUplinks (some [])
        ⟨none, none, none⟩ = .error (some [], none) := by
  decide

/-! ## C11: trunk VLAN ranges are looked up, not compared in order -/

theorem foldl_found_eq_any (emin emax : Int) (ranges : List NumericRange) (b : Bool) :
    ranges.foldl
        (fun found rng => if rng.Start == emin && rng.End == emax then true else found) b =
      (b || ranges.any (fun rng => rng.Start == emin && rng.End == emax)) := by
  induction ranges generalizing b with
  | nil => simp
  | cons r rs ih =>
    simp only [List.foldl_cons, List.any_cons, ih]
    cases h : (r.Start == emin && r.End == emax) <;> cases b <;> simp

theorem hasVlanRange_ok_iff (emin emax : Int) (ranges : List NumericRange) :
    testAccResourceVSphereDistributedVirtualSwitchHasVlanRange emin emax ranges = .ok () ↔
      ∃ r ∈ ranges, r.Start = emin ∧ r.End = emax := by
  unfold testAccResourceVSphereDistributedVirtualSwitchHasVlanRange
  simp only [foldl_found_eq_any, Bool.false_or]
  cases h : ranges.any (fun rng => rng.Start == emin && rng.End == emax)
  · simp only [Bool.not_false, if_true]
    constructor
    · intro hc
      cases hc
    · rintro ⟨r, hr, h1, h2⟩
      have : ranges.any (fun rng => rng.Start == emin && rng.End == emax) = true :=
        List.any_eq_true.mpr ⟨r, hr, by simp [h1, h2]⟩
      rw [h] at this
      cases this
  · simp only [Bool.not_true]
    constructor
    · intro _
      obtain ⟨r, hr, hp⟩ := List.any_eq_true.mp h
      exact ⟨r, hr, by simpa using hp⟩
    · intro _
      rfl

/-- C11. For every pair `(emin, emax)` and every list of trunk ranges, the
check `testAccResourceVSphereDistributedVirtualSwitchHasVlanRange(emin, emax)`
returns nil exactly when some range of the list has `Start = emin` and
`End = emax`; hence on two lists that are reorderings of each other it
returns nil on both or on neither. -/
theorem hasVlanRange_order_independent (emin emax : Int) (l1 l2 : List NumericRange)
    (hperm : l1.Perm l2) :
    (testAccResourceVSphereDistributedVirtualSwitchHasVlanRange emin emax l1 = .ok () ↔
        ∃ r ∈ l1, r.Start = emin ∧ r.End = emax) ∧
      (testAccResourceVSphereDistributedVirtualSwitchHasVlanRange emin emax l1 = .ok () ↔
        testAccResourceVSphereDistributedVirtualSwitchHasVlanRange emin emax l2 = .ok ()) := by
  refine ⟨hasVlanRange_ok_iff emin emax l1, ?_⟩
  rw [hasVlanRange_ok_iff, hasVlanRange_ok_iff]
  constructor
  · rintro ⟨r, hr, h⟩
    exact ⟨r, hperm.subset hr, h⟩
  · rintro ⟨r, hr, h⟩
    exact ⟨r, hperm.symm.subset hr, h⟩

/-- Witness for C11: the two orders of the trunk ranges of the test
configuration both pass the checks for (1000, 1999) and for (3000, 3999). -/
theorem hasVlanRange_order_independent_witness :
    trunkRanges.Perm trunkRangesSwapped ∧
      testAccResourceVSphereDistributedVirtualSwitchHasVlanRange 1000 1999 trunkRanges =
        .ok () ∧
      testAccResourceVSphereDistributedVirtualSwitchHasVlanRange 1000 1999
        trunkRangesSwapped = .ok () ∧
      testAccResourceVSphereDistributedVirtualSwitchHasVlanRange 3000 3999 trunkRanges =
        .ok () ∧
      testAccResourceVSphereDistributedVirtualSwitchHasVlanRange 3000 3999
        trunkRangesSwapped = .ok () :=
  have hperm : trunkRanges.Perm trunkRangesSwapped := List.Perm.swap _ _ _
  ⟨hperm, by decide,
    ((hasVlanRange_order_independent 1000 1999 trunkRanges trunkRangesSwapped hperm).2).mp
      (by decide),
    by decide,
    ((hasVlanRange_order_independent 3000 3999 trunkRanges trunkRangesSwapped hperm).2).mp
      (by decide)⟩

/-! ## The schema after the rewrites -/

theorem resourceSchema_entries (mergeSchema : SchemaMap → SchemaMap → SchemaMap)
    (spec : SchemaMap) (c : DefaultValue)
    (hkeys : ∀ k ∈ rewrittenKeys, (mergeSchema hostVirtualSwitchBaseSchema spec k).isSome) :
    ∃ s, resourceVSphereHostVirtualSwitch mergeSchema spec c = some s ∧
      s.requiredOf "active_nics" = some true ∧
      s.requiredOf "standby_nics" = some true ∧
      s.defaultOf "teaming_policy" = some (some c) ∧
      s.defaultOf "check_beacon" = some (some (.bool false)) ∧
      s.defaultOf "notify_switches" = some (some (.bool true)) ∧
      s.defaultOf "failback" = some (some (.bool true)) ∧
      s.defaultOf "allow_promiscuous" = some (some (.bool false)) ∧
      s.defaultOf "allow_forged_transmits" = some (some (.bool true)) ∧
      s.defaultOf "allow_mac_changes" = some (some (.bool true)) ∧
      s.defaultOf "shaping_enabled" = some (some (.bool false)) := by
  obtain ⟨e1, h1⟩ := Option.isSome_iff_exists.mp (hkeys "active_nics" (by simp [rewrittenKeys]))
  obtain ⟨e2, h2⟩ := Option.isSome_iff_exists.mp (hkeys "standby_nics" (by simp [rewrittenKeys]))
  obtain ⟨e3, h3⟩ := Option.isSome_iff_exists.mp (hkeys "teaming_policy" (by simp [rewrittenKeys]))
  obtain ⟨e4, h4⟩ := Option.isSome_iff_exists.mp (hkeys "check_beacon" (by simp [rewrittenKeys]))
  obtain ⟨e5, h5⟩ := Option.isSome_iff_exists.mp (hkeys "notify_switches" (by simp [rewrittenKeys]))
  obtain ⟨e6, h6⟩ := Option.isSome_iff_exists.mp (hkeys "failback" (by simp [rewrittenKeys]))
  obtain ⟨e7, h7⟩ := Option.isSome_iff_exists.mp (hkeys "allow_promiscuous" (by simp [rewrittenKeys]))
  obtain ⟨e8, h8⟩ := Option.isSome_iff_exists.mp
    (hkeys "allow_forged_transmits" (by simp [rewrittenKeys]))
  obtain ⟨e9, h9⟩ := Option.isSome_iff_exists.mp (hkeys "allow_mac_changes" (by simp [rewrittenKeys]))
  obtain ⟨e10, h10⟩ := Option.isSome_iff_exists.mp (hkeys "shaping_enabled" (by simp [rewrittenKeys]))
  simp [resourceVSphereHostVirtualSwitch, SchemaMap.assign, SchemaMap.defaultOf,
    SchemaMap.requiredOf, h1, h2, h3, h4, h5, h6, h7, h8, h9, h10]

/-! ## C12: teaming defaults of the host-local schema -/

/-- C12. Whenever the merged schema has an entry for each key that
`resourceVSphereHostVirtualSwitch` rewrites, the function returns a schema in
which `teaming_policy` defaults to
`hostNetworkPolicyNicTeamingPolicyModeLoadbalanceSrcID`, `notify_switches` to
true, `failback` to true and `check_beacon` to false. -/
theorem host_local_teaming_defaults (mergeSchema : SchemaMap → SchemaMap → SchemaMap)
    (spec : SchemaMap) (hostNetworkPolicyNicTeamingPolicyModeLoadbalanceSrcID : DefaultValue)
    (hkeys : ∀ k ∈ rewrittenKeys, (mergeSchema hostVirtualSwitchBaseSchema spec k).isSome) :
    ∃ s, resourceVSphereHostVirtualSwitch mergeSchema spec
          hostNetworkPolicyNicTeamingPolicyModeLoadbalanceSrcID = some s ∧
      s.defaultOf "teaming_policy" =
        some (some hostNetworkPolicyNicTeamingPolicyModeLoadbalanceSrcID) ∧
      s.defaultOf "notify_switches" = some (some (.bool true)) ∧
      s.defaultOf "failback" = some (some (.bool true)) ∧
      s.defaultOf "check_beacon" = some (some (.bool false)) := by
  obtain ⟨s, hs, _, _, h3, h4, h5, h6, _⟩ :=
    resourceSchema_entries mergeSchema spec
      hostNetworkPolicyNicTeamingPolicyModeLoadbalanceSrcID hkeys
  exact ⟨s, hs, h3, h5, h6, h4⟩

/-- Witness for C12: the sample switch-spec schema merged into the base map,
with a string constant for the teaming mode. -/
theorem host_local_teaming_defaults_witness :
    ∃ s, resourceVSphereHostVirtualSwitch sampleMergeSchema sampleSwitchSpecSchema
          (.str "loadbalance_srcid") = some s ∧
      s.defaultOf "teaming_policy" = some (some (.str "loadbalance_srcid")) ∧
      s.defaultOf "notify_switches" = some (some (.bool true)) ∧
      s.defaultOf "failback" = some (some (.bool true)) ∧
      s.defaultOf "check_beacon" = some (some (.bool false)) :=
  host_local_teaming_defaults sampleMergeSchema sampleSwitchSpecSchema
    (.str "loadbalance_srcid") (by decide)

/-! ## C13: what the read path returns when the switch lookup fails -/

/-- C13, as stated, fails: when reading the switch back fails with a
not-found fault, `resourceVSphereHostVirtualSwitchRead` returns the very
same error value as when it fails with a fatal fault of the same message;
the returned error has no category. -/
theorem read_not_found_indistinguishable :
    (GoError.fault .notFound "lookup failed").kind? ≠
        (GoError.fault .fatal "lookup failed").kind? ∧
      (resourceVSphereHostVirtualSwitchRead
          (lookupFaultEnv (.fault .notFound "lookup failed")) sampleSaved ()).err =
        (resourceVSphereHostVirtualSwitchRead
          (lookupFaultEnv (.fault .fatal "lookup failed")) sampleSaved ()).err ∧
      (resourceVSphereHostVirtualSwitchRead
          (lookupFaultEnv (.fault .notFound "lookup failed")) sampleSaved ()).err =
        some (.errorf "error fetching virtual switch data: lookup failed") := by
  decide

/-- C13, amended. When the switch lookup in
`resourceVSphereHostVirtualSwitchRead` fails, the returned error is a new
message-only error, `error fetching virtual switch data: ` followed by the
message of the lookup fault, and it has no category: a not-found fault can
be told from another lookup fault by its message text only. -/
theorem read_lookup_failure_keeps_message_only {σ : Type} (env : Env σ) (d : ResourceData)
    (w w1 w2 : σ) (hsID name : String) (ns : HostNetworkSystem) (err : GoError)
    (hdec : env.virtualSwitchIDsFromResourceID d = .ok (hsID, name))
    (hns : env.hostNetworkSystemFromHostSystemID w hsID = (.ok ns, w1))
    (hsw : env.hostVSwitchFromName w1 ns name = (.error err, w2)) :
    (resourceVSphereHostVirtualSwitchRead env d w).err =
        some (.errorf ("error fetching virtual switch data: " ++ err.Error)) ∧
      (resourceVSphereHostVirtualSwitchRead env d w).err.bind GoError.kind? = none := by
  simp [resourceVSphereHostVirtualSwitchRead, hdec, hns, hsw, fmtErrorf, GoError.kind?]

/-- Witness for amended C13: reading the sample switch from a world that
does not hold it. -/
theorem read_lookup_failure_keeps_message_only_witness :
    (resourceVSphereHostVirtualSwitchRead sampleEnv sampleSaved emptyWorld).err =
        some (.errorf ("error fetching virtual switch data: " ++
          (GoError.fault .notFound "virtual switch not found").Error)) ∧
      (resourceVSphereHostVirtualSwitchRead sampleEnv sampleSaved emptyWorld).err.bind
        GoError.kind? = none :=
  read_lookup_failure_keeps_message_only sampleEnv sampleSaved emptyWorld emptyWorld
    emptyWorld "host-10" "vSwitchTest" ⟨"host-10"⟩
    (.fault .notFound "virtual switch not found") (by decide) (by decide) (by decide)

/-! ## C14: what a failure says about earlier steps -/

/-- C14, as stated, fails: when `AddVirtualSwitch` succeeds and the read that
follows fails, the error that `resourceVSphereHostVirtualSwitchCreate`
returns is the error of the read and nothing more; it is the same value that
a plain read returns when nothing was added. -/
theorem create_error_omits_added_switch :
    (resourceVSphereHostVirtualSwitchCreate
          (lookupFaultEnv (.fault .notFound "vanished")) sampleData ()).trace.filter
          Step.isWrite =
        [.AddVirtualSwitch ⟨"host-10"⟩ "vSwitchTest"
          (expandHostVirtualSwitchSpec sampleData)] ∧
      (resourceVSphereHostVirtualSwitchCreate
          (lookupFaultEnv (.fault .notFound "vanished")) sampleData ()).err =
        some (.errorf "error fetching virtual switch data: vanished") ∧
      (resourceVSphereHostVirtualSwitchRead
          (lookupFaultEnv (.fault .notFound "vanished")) sampleSaved ()).trace.filter
          Step.isWrite = [] ∧
      (resourceVSphereHostVirtualSwitchRead
          (lookupFaultEnv (.fault .notFound "vanished")) sampleSaved ()).err =
        (resourceVSphereHostVirtualSwitchCreate
          (lookupFaultEnv (.fault .notFound "vanished")) sampleData ()).err := by
  decide

/-- C14, amended. A failure returned by Read, Create, Update or Delete names
the step that failed, and no step that succeeded before it.  For each
operation and each of its steps: when that step is the first to fail, the
returned error is the text belonging to that step (`error loading host
network system: `, `error adding host vSwitch: `, `error updating host
vSwitch: `, `error deleting host vSwitch: `, `error fetching virtual switch
data: `, `error setting resource data: `) followed by the message of the
error of that step; a failing decode of the identity is returned as it is.
When the write of Create or Update succeeds, the operation returns exactly
what the read that follows returns, with nothing said about the write. -/
theorem failure_names_failed_step_only {σ : Type} (env : Env σ) (d : ResourceData) (w : σ) :
    ((∀ e, env.virtualSwitchIDsFromResourceID d = .error e →
        (resourceVSphereHostVirtualSwitchRead env d w).err = some e) ∧
      (∀ hsID name e w1, env.virtualSwitchIDsFromResourceID d = .ok (hsID, name) →
        env.hostNetworkSystemFromHostSystemID w hsID = (.error e, w1) →
        (resourceVSphereHostVirtualSwitchRead env d w).err =
          some (.errorf ("error loading host network system: " ++ e.Error))) ∧
      (∀ hsID name ns w1 e w2, env.virtualSwitchIDsFromResourceID d = .ok (hsID, name) →
        env.hostNetworkSystemFromHostSystemID w hsID = (.ok ns, w1) →
        env.hostVSwitchFromName w1 ns name = (.error e, w2) →
        (resourceVSphereHostVirtualSwitchRead env d w).err =
          some (.errorf ("error fetching virtual switch data: " ++ e.Error))) ∧
      (∀ hsID name ns w1 sw w2 d1 e,
        env.virtualSwitchIDsFromResourceID d = .ok (hsID, name) →
        env.hostNetworkSystemFromHostSystemID w hsID = (.ok ns, w1) →
        env.hostVSwitchFromName w1 ns name = (.ok sw, w2) →
        env.flattenHostVirtualSwitchSpec d sw.Spec = (d1, some e) →
        (resourceVSphereHostVirtualSwitchRead env d w).err =
          some (.errorf ("error setting resource data: " ++ e.Error))) ∧
      (∀ hsID name ns w1 sw w2 d1,
        env.virtualSwitchIDsFromResourceID d = .ok (hsID, name) →
        env.hostNetworkSystemFromHostSystemID w hsID = (.ok ns, w1) →
        env.hostVSwitchFromName w1 ns name = (.ok sw, w2) →
        env.flattenHostVirtualSwitchSpec d sw.Spec = (d1, none) →
        (resourceVSphereHostVirtualSwitchRead env d w).err = none)) ∧
    ((∀ e w1, env.hostNetworkSystemFromHostSystemID w d.host_system_id = (.error e, w1) →
        (resourceVSphereHostVirtualSwitchCreate env d w).err =
          some (.errorf ("error loading host network system: " ++ e.Error))) ∧
      (∀ ns w1 e w2,
        env.hostNetworkSystemFromHostSystemID w d.host_system_id = (.ok ns, w1) →
        env.AddVirtualSwitch w1 ns d.name (env.expandHostVirtualSwitchSpec d) = (some e, w2) →
        (resourceVSphereHostVirtualSwitchCreate env d w).err =
          some (.errorf ("error adding host vSwitch: " ++ e.Error))) ∧
      (∀ ns w1 w2,
        env.hostNetworkSystemFromHostSystemID w d.host_system_id = (.ok ns, w1) →
        env.AddVirtualSwitch w1 ns d.name (env.expandHostVirtualSwitchSpec d) = (none, w2) →
        (resourceVSphereHostVirtualSwitchCreate env d w).err =
          (resourceVSphereHostVirtualSwitchRead env
            (env.saveHostVirtualSwitchID d d.host_system_id d.name) w2).err)) ∧
    ((∀ e, env.virtualSwitchIDsFromResourceID d = .error e →
        (resourceVSphereHostVirtualSwitchUpdate env d w).err = some e) ∧
      (∀ hsID name e w1, env.virtualSwitchIDsFromResourceID d = .ok (hsID, name) →
        env.hostNetworkSystemFromHostSystemID w hsID = (.error e, w1) →
        (resourceVSphereHostVirtualSwitchUpdate env d w).err =
          some (.errorf ("error loading host network system: " ++ e.Error))) ∧
      (∀ hsID name ns w1 e w2, env.virtualSwitchIDsFromResourceID d = .ok (hsID, name) →
        env.hostNetworkSystemFromHostSystemID w hsID = (.ok ns, w1) →
        env.UpdateVirtualSwitch w1 ns name (env.expandHostVirtualSwitchSpec d) =
          (some e, w2) →
        (resourceVSphereHostVirtualSwitchUpdate env d w).err =
          some (.errorf ("error updating host vSwitch: " ++ e.Error))) ∧
      (∀ hsID name ns w1 w2, env.virtualSwitchIDsFromResourceID d = .ok (hsID, name) →
        env.hostNetworkSystemFromHostSystemID w hsID = (.ok ns, w1) →
        env.UpdateVirtualSwitch w1 ns name (env.expandHostVirtualSwitchSpec d) = (none, w2) →
        (resourceVSphereHostVirtualSwitchUpdate env d w).err =
          (resourceVSphereHostVirtualSwitchRead env d w2).err)) ∧
    ((∀ e, env.virtualSwitchIDsFromResourceID d = .error e →
        (resourceVSphereHostVirtualSwitchDelete env d w).err = some e) ∧
      (∀ hsID name e w1, env.virtualSwitchIDsFromResourceID d = .ok (hsID, name) →
        env.hostNetworkSystemFromHostSystemID w hsID = (.error e, w1) →
        (resourceVSphereHostVirtualSwitchDelete env d w).err =
          some (.errorf ("error loading host network system: " ++ e.Error))) ∧
      (∀ hsID name ns w1 e w2, env.virtualSwitchIDsFromResourceID d = .ok (hsID, name) →
        env.hostNetworkSystemFromHostSystemID w hsID = (.ok ns, w1) →
        env.RemoveVirtualSwitch w1 ns name = (some e, w2) →
        (resourceVSphereHostVirtualSwitchDelete env d w).err =
          some (.errorf ("error deleting host vSwitch: " ++ e.Error))) ∧
      (∀ hsID name ns w1 w2, env.virtualSwitchIDsFromResourceID d = .ok (hsID, name) →
        env.hostNetworkSystemFromHostSystemID w hsID = (.ok ns, w1) →
        env.RemoveVirtualSwitch w1 ns name = (none, w2) →
        (resourceVSphereHostVirtualSwitchDelete env d w).err = none)) := by
  refine ⟨⟨?_, ?_, ?_, ?_, ?_⟩, ⟨?_, ?_, ?_⟩, ⟨?_, ?_, ?_, ?_⟩, ⟨?_, ?_, ?_, ?_⟩⟩
  · intro e h0
    simp [resourceVSphereHostVirtualSwitchRead, h0]
  · intro hsID name e w1 h0 h1
    simp [resourceVSphereHostVirtualSwitchRead, h0, h1, fmtErrorf]
  · intro hsID name ns w1 e w2 h0 h1 h2
    simp [resourceVSphereHostVirtualSwitchRead, h0, h1, h2, fmtErrorf]
  · intro hsID name ns w1 sw w2 d1 e h0 h1 h2 h3
    simp [resourceVSphereHostVirtualSwitchRead, h0, h1, h2, h3, fmtErrorf]
  · intro hsID name ns w1 sw w2 d1 h0 h1 h2 h3
    simp [resourceVSphereHostVirtualSwitchRead, h0, h1, h2, h3]
  · intro e w1 h1
    simp [resourceVSphereHostVirtualSwitchCreate, h1, fmtErrorf]
  · intro ns w1 e w2 h1 h2
    simp [resourceVSphereHostVirtualSwitchCreate, h1, h2, fmtErrorf]
  · intro ns w1 w2 h1 h2
    simp [resourceVSphereHostVirtualSwitchCreate, h1, h2, Outcome.after]
  · intro e h0
    simp [resourceVSphereHostVirtualSwitchUpdate, h0]
  · intro hsID name e w1 h0 h1
    simp [resourceVSphereHostVirtualSwitchUpdate, h0, h1, fmtErrorf]
  · intro hsID name ns w1 e w2 h0 h1 h2
    simp [resourceVSphereHostVirtualSwitchUpdate, h0, h1, h2, fmtErrorf]
  · intro hsID name ns w1 w2 h0 h1 h2
    simp [resourceVSphereHostVirtualSwitchUpdate, h0, h1, h2, Outcome.after]
  · intro e h0
    simp [resourceVSphereHostVirtualSwitchDelete, h0]
  · intro hsID name e w1 h0 h1
    simp [resourceVSphereHostVirtualSwitchDelete, h0, h1, fmtErrorf]
  · intro hsID name ns w1 e w2 h0 h1 h2
    simp [resourceVSphereHostVirtualSwitchDelete, h0, h1, h2, fmtErrorf]
  · intro hsID name ns w1 w2 h0 h1 h2
    simp [resourceVSphereHostVirtualSwitchDelete, h0, h1, h2]

/-- Witness for amended C14: one run of the sample switch for each step of
each operation that can fail, and for each success. -/
theorem failure_names_failed_step_only_witness :
    ((resourceVSphereHostVirtualSwitchRead sampleEnv sampleData syncedWorld).err =
        some (.errorf "MalformedIdentity") ∧
      (resourceVSphereHostVirtualSwitchRead sampleEnv sampleSaved noHostWorld).err =
        some (.errorf ("error loading host network system: " ++
          (GoError.fault .notFound "host not found").Error)) ∧
      (resourceVSphereHostVirtualSwitchRead sampleEnv sampleSaved emptyWorld).err =
        some (.errorf ("error fetching virtual switch data: " ++
          (GoError.fault .notFound "virtual switch not found").Error)) ∧
      (resourceVSphereHostVirtualSwitchRead (flattenFaultEnv (.errorf "bad field"))
          sampleSaved ()).err =
        some (.errorf ("error setting resource data: " ++
          (GoError.errorf "bad field").Error)) ∧
      (resourceVSphereHostVirtualSwitchRead sampleEnv sampleSaved syncedWorld).err = none) ∧
    ((resourceVSphereHostVirtualSwitchCreate sampleEnv sampleData noHostWorld).err =
        some (.errorf ("error loading host network system: " ++
          (GoError.fault .notFound "host not found").Error)) ∧
      (resourceVSphereHostVirtualSwitchCreate sampleEnv sampleData syncedWorld).err =
        some (.errorf ("error adding host vSwitch: " ++
          (GoError.fault .conflict "virtual switch already exists").Error)) ∧
      (resourceVSphereHostVirtualSwitchCreate
          (lookupFaultEnv (.fault .notFound "vanished")) sampleData ()).err =
        (resourceVSphereHostVirtualSwitchRead (lookupFaultEnv (.fault .notFound "vanished"))
          ((lookupFaultEnv (.fault .notFound "vanished")).saveHostVirtualSwitchID sampleData
            sampleData.host_system_id sampleData.name) ()).err) ∧
    ((resourceVSphereHostVirtualSwitchUpdate sampleEnv sampleData syncedWorld).err =
        some (.errorf "MalformedIdentity") ∧
      (resourceVSphereHostVirtualSwitchUpdate sampleEnv sampleSaved noHostWorld).err =
        some (.errorf ("error loading host network system: " ++
          (GoError.fault .notFound "host not found").Error)) ∧
      (resourceVSphereHostVirtualSwitchUpdate sampleEnv sampleSaved emptyWorld).err =
        some (.errorf ("error updating host vSwitch: " ++
          (GoError.fault .notFound "virtual switch not found").Error)) ∧
      (resourceVSphereHostVirtualSwitchUpdate
          (lookupFaultEnv (.fault .notFound "vanished")) sampleSaved ()).err =
        (resourceVSphereHostVirtualSwitchRead (lookupFaultEnv (.fault .notFound "vanished"))
          sampleSaved ()).err) ∧
    ((resourceVSphereHostVirtualSwitchDelete sampleEnv sampleData syncedWorld).err =
        some (.errorf "MalformedIdentity") ∧
      (resourceVSphereHostVirtualSwitchDelete sampleEnv sampleSaved noHostWorld).err =
        some (.errorf ("error loading host network system: " ++
          (GoError.fault .notFound "host not found").Error)) ∧
      (resourceVSphereHostVirtualSwitchDelete sampleEnv sampleSaved emptyWorld).err =
        some (.errorf ("error deleting host vSwitch: " ++
          (GoError.fault .notFound "virtual switch not found").Error)) ∧
      (resourceVSphereHostVirtualSwitchDelete sampleEnv sampleSaved syncedWorld).err = none) :=
  ⟨⟨(failure_names_failed_step_only sampleEnv sampleData syncedWorld).1.1
        (.errorf "MalformedIdentity") (by decide),
      (failure_names_failed_step_only sampleEnv sampleSaved noHostWorld).1.2.1
        "host-10" "vSwitchTest" (.fault .notFound "host not found") noHostWorld
        (by decide) (by decide),
      (failure_names_failed_step_only sampleEnv sampleSaved emptyWorld).1.2.2.1
        "host-10" "vSwitchTest" ⟨"host-10"⟩ emptyWorld
        (.fault .notFound "virtual switch not found") emptyWorld
        (by decide) (by decide) (by decide),
      (failure_names_failed_step_only (flattenFaultEnv (.errorf "bad field"))
        sampleSaved ()).1.2.2.2.1
        "host-10" "vSwitchTest" ⟨"host-10"⟩ () ⟨expandHostVirtualSwitchSpec sampleData⟩ ()
        sampleSaved (.errorf "bad field") (by decide) (by decide) (by decide) (by decide),
      (failure_names_failed_step_only sampleEnv sampleSaved syncedWorld).1.2.2.2.2
        "host-10" "vSwitchTest" ⟨"host-10"⟩ syncedWorld
        ⟨expandHostVirtualSwitchSpec sampleData⟩ syncedWorld sampleSaved
        (by decide) (by decide) (by decide) (by decide)⟩,
    ⟨(failure_names_failed_step_only sampleEnv sampleData noHostWorld).2.1.1
        (.fault .notFound "host not found") noHostWorld (by decide),
      (failure_names_failed_step_only sampleEnv sampleData syncedWorld).2.1.2.1
        ⟨"host-10"⟩ syncedWorld (.fault .conflict "virtual switch already exists")
        syncedWorld (by decide) (by decide),
      (failure_names_failed_step_only (lookupFaultEnv (.fault .notFound "vanished"))
        sampleData ()).2.1.2.2 ⟨"host-10"⟩ () () (by decide) (by decide)⟩,
    ⟨(failure_names_failed_step_only sampleEnv sampleData syncedWorld).2.2.1.1
        (.errorf "MalformedIdentity") (by decide),
      (failure_names_failed_step_only sampleEnv sampleSaved noHostWorld).2.2.1.2.1
        "host-10" "vSwitchTest" (.fault .notFound "host not found") noHostWorld
        (by decide) (by decide),
      (failure_names_failed_step_only sampleEnv sampleSaved emptyWorld).2.2.1.2.2.1
        "host-10" "vSwitchTest" ⟨"host-10"⟩ emptyWorld
        (.fault .notFound "virtual switch not found") emptyWorld
        (by decide) (by decide) (by decide),
      (failure_names_failed_step_only (lookupFaultEnv (.fault .notFound "vanished"))
        sampleSaved ()).2.2.1.2.2.2 "host-10" "vSwitchTest" ⟨"host-10"⟩ () ()
        (by decide) (by decide) (by decide)⟩,
    ⟨(failure_names_failed_step_only sampleEnv sampleData syncedWorld).2.2.2.1
        (.errorf "MalformedIdentity") (by decide),
      (failure_names_failed_step_only sampleEnv sampleSaved noHostWorld).2.2.2.2.1
        "host-10" "vSwitchTest" (.fault .notFound "host not found") noHostWorld
        (by decide) (by decide),
      (failure_names_failed_step_only sampleEnv sampleSaved emptyWorld).2.2.2.2.2.1
        "host-10" "vSwitchTest" ⟨"host-10"⟩ emptyWorld
        (.fault .notFound "virtual switch not found") emptyWorld
        (by decide) (by decide) (by decide),
      (failure_names_failed_step_only sampleEnv sampleSaved syncedWorld).2.2.2.2.2.2
        "host-10" "vSwitchTest" ⟨"host-10"⟩ syncedWorld emptyWorld
        (by decide) (by decide) (by decide)⟩⟩

/-! ## C15: the identity across read and update -/

theorem flatten_keeps_id (d : ResourceData) (spec : HostVirtualSwitchSpec) :
    (flattenHostVirtualSwitchSpec d spec).1.id = d.id := by
  obtain ⟨nic, teaming, security, shaping⟩ := spec
  cases teaming <;> cases security <;> cases shaping <;> rfl

theorem read_keeps_id {σ : Type} (env : Env σ)
    (hflat : ∀ d spec, (env.flattenHostVirtualSwitchSpec d spec).1.id = d.id)
    (d : ResourceData) (w : σ) :
    (resourceVSphereHostVirtualSwitchRead env d w).d.id = d.id := by
  unfold resourceVSphereHostVirtualSwitchRead
  cases h0 : env.virtualSwitchIDsFromResourceID d with
  | error e => simp
  | ok p =>
    obtain ⟨hsID, name⟩ := p
    rcases h1 : env.hostNetworkSystemFromHostSystemID w hsID with ⟨r, w1⟩
    cases r with
    | error e => simp [h1]
    | ok ns =>
      rcases h2 : env.hostVSwitchFromName w1 ns name with ⟨r2, w2⟩
      cases r2 with
      | error e => simp [h1, h2]
      | ok sw =>
        have hf := hflat d sw.Spec
        rcases h3 : env.flattenHostVirtualSwitchSpec d sw.Spec with ⟨d1, fe⟩
        rw [h3] at hf
        cases fe <;> simpa [h1, h2, h3] using hf

/-- C15. Provided the flattener does not write the identity, the identity
string of the resource after `resourceVSphereHostVirtualSwitchRead` or
`resourceVSphereHostVirtualSwitchUpdate` returns, with nil or with an error,
is the one it had before the call. -/
theorem identity_stable_across_read_update {σ : Type} (env : Env σ)
    (hflat : ∀ d spec, (env.flattenHostVirtualSwitchSpec d spec).1.id = d.id)
    (d : ResourceData) (w : σ) :
    (resourceVSphereHostVirtualSwitchRead env d w).d.id = d.id ∧
      (resourceVSphereHostVirtualSwitchUpdate env d w).d.id = d.id := by
  refine ⟨read_keeps_id env hflat d w, ?_⟩
  unfold resourceVSphereHostVirtualSwitchUpdate
  cases h0 : env.virtualSwitchIDsFromResourceID d with
  | error e => simp
  | ok p =>
    obtain ⟨hsID, name⟩ := p
    rcases h1 : env.hostNetworkSystemFromHostSystemID w hsID with ⟨r, w1⟩
    cases r with
    | error e => simp [h1]
    | ok ns =>
      rcases h2 : env.UpdateVirtualSwitch w1 ns name (env.expandHostVirtualSwitchSpec d)
        with ⟨e, w2⟩
      cases e with
      | some e => simp [h1, h2]
      | none => simpa [h1, h2, Outcome.after] using read_keeps_id env hflat d w2

/-- Witness for C15: a successful update of the sample switch, and a read
and an update that fail because the switch is missing. -/
theorem identity_stable_across_read_update_witness :
    ((resourceVSphereHostVirtualSwitchRead sampleEnv sampleSaved syncedWorld).d.id =
        "host-10:vSwitchTest" ∧
      (resourceVSphereHostVirtualSwitchUpdate sampleEnv sampleSaved syncedWorld).d.id =
        "host-10:vSwitchTest") ∧
      ((resourceVSphereHostVirtualSwitchRead sampleEnv sampleSaved emptyWorld).d.id =
        "host-10:vSwitchTest" ∧
      (resourceVSphereHostVirtualSwitchUpdate sampleEnv sampleSaved emptyWorld).d.id =
        "host-10:vSwitchTest") :=
  ⟨identity_stable_across_read_update sampleEnv
      (fun d spec => flatten_keeps_id d spec) sampleSaved syncedWorld,
    identity_stable_across_read_update sampleEnv
      (fun d spec => flatten_keeps_id d spec) sampleSaved emptyWorld⟩

/-! ## C16: a persisted identity that does not decode -/

/-- C16. When `virtualSwitchIDsFromResourceID` fails, each of Read, Update
and Delete returns exactly that error, not wrapped, and makes no remote call
at all; the resource data and the remote world are left as they were. -/
theorem decode_failure_returned_unwrapped {σ : Type} (env : Env σ) (d : ResourceData)
    (w : σ) (err : GoError) (hdec : env.virtualSwitchIDsFromResourceID d = .error err) :
    ((resourceVSphereHostVirtualSwitchRead env d w).err = some err ∧
        (resourceVSphereHostVirtualSwitchRead env d w).trace.filter Step.isRemote = [] ∧
        (resourceVSphereHostVirtualSwitchRead env d w).d = d ∧
        (resourceVSphereHostVirtualSwitchRead env d w).world = w) ∧
      ((resourceVSphereHostVirtualSwitchUpdate env d w).err = some err ∧
        (resourceVSphereHostVirtualSwitchUpdate env d w).trace.filter Step.isRemote = [] ∧
        (resourceVSphereHostVirtualSwitchUpdate env d w).d = d ∧
        (resourceVSphereHostVirtualSwitchUpdate env d w).world = w) ∧
      ((resourceVSphereHostVirtualSwitchDelete env d w).err = some err ∧
        (resourceVSphereHostVirtualSwitchDelete env d w).trace.filter Step.isRemote = [] ∧
        (resourceVSphereHostVirtualSwitchDelete env d w).d = d ∧
        (resourceVSphereHostVirtualSwitchDelete env d w).world = w) := by
  simp [resourceVSphereHostVirtualSwitchRead, resourceVSphereHostVirtualSwitchUpdate,
    resourceVSphereHostVirtualSwitchDelete, hdec, Step.isRemote, Step.isWrite]

/-- Witness for C16: the sample resource with no identity stored, in a
world that holds the switch. -/
theorem decode_failure_returned_unwrapped_witness :
    sampleEnv.virtualSwitchIDsFromResourceID sampleData =
        .error (.errorf "MalformedIdentity") ∧
      (resourceVSphereHostVirtualSwitchRead sampleEnv sampleData syncedWorld).err =
        some (.errorf "MalformedIdentity") ∧
      (resourceVSphereHostVirtualSwitchUpdate sampleEnv sampleData syncedWorld).err =
        some (.errorf "MalformedIdentity") ∧
      (resourceVSphereHostVirtualSwitchDelete sampleEnv sampleData syncedWorld).trace.filter
        Step.isRemote = [] :=
  have hdec : sampleEnv.virtualSwitchIDsFromResourceID sampleData =
      .error (.errorf "MalformedIdentity") := by decide
  have h := decode_failure_returned_unwrapped sampleEnv sampleData syncedWorld
    (.errorf "MalformedIdentity") hdec
  ⟨hdec, h.1.1, h.2.1.1, h.2.2.2.1⟩

/-! ## C17: when Create persists the identity -/

/-- C17. Provided the flattener does not write the identity: when the host
network system lookup or the `AddVirtualSwitch` call fails,
`resourceVSphereHostVirtualSwitchCreate` returns an error and leaves the
identity as it was, unset on a new resource; when `AddVirtualSwitch`
succeeds, the identity is the one `saveHostVirtualSwitchID` stores for the
`host_system_id` and `name` that the lookup and the `AddVirtualSwitch` call
were made with, whether the read that follows succeeds or fails. -/
theorem create_persists_identity_iff_added {σ : Type} (env : Env σ)
    (hflat : ∀ d spec, (env.flattenHostVirtualSwitchSpec d spec).1.id = d.id)
    (d : ResourceData) (w : σ) :
    (∀ err w1, env.hostNetworkSystemFromHostSystemID w d.host_system_id = (.error err, w1) →
        (resourceVSphereHostVirtualSwitchCreate env d w).err.isSome = true ∧
          (resourceVSphereHostVirtualSwitchCreate env d w).d.id = d.id) ∧
      (∀ ns w1 err w2,
        env.hostNetworkSystemFromHostSystemID w d.host_system_id = (.ok ns, w1) →
        env.AddVirtualSwitch w1 ns d.name (env.expandHostVirtualSwitchSpec d) =
          (some err, w2) →
        (resourceVSphereHostVirtualSwitchCreate env d w).err.isSome = true ∧
          (resourceVSphereHostVirtualSwitchCreate env d w).d.id = d.id) ∧
      (∀ ns w1 w2,
        env.hostNetworkSystemFromHostSystemID w d.host_system_id = (.ok ns, w1) →
        env.AddVirtualSwitch w1 ns d.name (env.expandHostVirtualSwitchSpec d) = (none, w2) →
        (resourceVSphereHostVirtualSwitchCreate env d w).d.id =
            (env.saveHostVirtualSwitchID d d.host_system_id d.name).id ∧
          (resourceVSphereHostVirtualSwitchCreate env d w).trace.take 4 =
            [.hostNetworkSystemFromHostSystemID d.host_system_id,
              .expandHostVirtualSwitchSpec,
              .AddVirtualSwitch ns d.name (env.expandHostVirtualSwitchSpec d),
              .saveHostVirtualSwitchID d.host_system_id d.name]) := by
  refine ⟨?_, ?_, ?_⟩
  · intro err w1 h
    simp [resourceVSphereHostVirtualSwitchCreate, h]
  · intro ns w1 err w2 h1 h2
    simp [resourceVSphereHostVirtualSwitchCreate, h1, h2]
  · intro ns w1 w2 h1 h2
    have hr := read_keeps_id env hflat
      (env.saveHostVirtualSwitchID d d.host_system_id d.name) w2
    simpa [resourceVSphereHostVirtualSwitchCreate, h1, h2, Outcome.after] using hr

/-- Witness for C17: Create of the sample switch where no host resolves,
where the switch already exists, where everything succeeds, and where the
switch is added but cannot be read back. -/
theorem create_persists_identity_iff_added_witness :
    (resourceVSphereHostVirtualSwitchCreate sampleEnv sampleData noHostWorld).d.id = "" ∧
      (resourceVSphereHostVirtualSwitchCreate sampleEnv sampleData syncedWorld).d.id = "" ∧
      (resourceVSphereHostVirtualSwitchCreate sampleEnv sampleData emptyWorld).d.id =
        "host-10:vSwitchTest" ∧
      Encode ':' (.HostScoped "host-10" "vSwitchTest") = .ok "host-10:vSwitchTest" ∧
      (resourceVSphereHostVirtualSwitchCreate
          (lookupFaultEnv (.fault .notFound "vanished")) sampleData ()).err.isSome = true ∧
      (resourceVSphereHostVirtualSwitchCreate
          (lookupFaultEnv (.fault .notFound "vanished")) sampleData ()).d.id =
        "host-10:vSwitchTest" :=
  ⟨((create_persists_identity_iff_added sampleEnv (fun d spec => flatten_keeps_id d spec)
      sampleData noHostWorld).1 (.fault .notFound "host not found") noHostWorld
      (by decide)).2,
    ((create_persists_identity_iff_added sampleEnv (fun d spec => flatten_keeps_id d spec)
      sampleData syncedWorld).2.1 ⟨"host-10"⟩ syncedWorld
      (.fault .conflict "virtual switch already exists") syncedWorld
      (by decide) (by decide)).2,
    ((create_persists_identity_iff_added sampleEnv (fun d spec => flatten_keeps_id d spec)
      sampleData emptyWorld).2.2 ⟨"host-10"⟩ emptyWorld
      { emptyWorld with
        switches := [(("host-10", "vSwitchTest"), expandHostVirtualSwitchSpec sampleData)] }
      (by decide) (by decide)).1,
    by decide, by decide,
    ((create_persists_identity_iff_added (lookupFaultEnv (.fault .notFound "vanished"))
      (fun d spec => flatten_keeps_id d spec) sampleData ()).2.2 ⟨"host-10"⟩ () ()
      (by decide) (by decide)).1⟩

/-! ## C18: which switch Update and Delete address -/

theorem read_trace_addresses {σ : Type} (env : Env σ) (d : ResourceData) (w : σ)
    (hsID name : String) (hdec : env.virtualSwitchIDsFromResourceID d = .ok (hsID, name)) :
    (resourceVSphereHostVirtualSwitchRead env d w).trace.all (Step.addresses hsID name) =
      true := by
  unfold resourceVSphereHostVirtualSwitchRead
  rcases h1 : env.hostNetworkSystemFromHostSystemID w hsID with ⟨r, w1⟩
  cases r with
  | error e => simp [hdec, h1, Step.addresses]
  | ok ns =>
    rcases h2 : env.hostVSwitchFromName w1 ns name with ⟨r2, w2⟩
    cases r2 with
    | error e => simp [hdec, h1, h2, Step.addresses]
    | ok sw =>
      rcases h3 : env.flattenHostVirtualSwitchSpec d sw.Spec with ⟨d1, fe⟩
      cases fe <;> simp [hdec, h1, h2, h3, Step.addresses]

/-- C18. Update and Delete address the switch by the persisted identity
alone: when `virtualSwitchIDsFromResourceID d` returns `(hsID, name)`, every
host lookup in their traces is made for `hsID` and every call on a switch is
made for `name`; once the lookup returns `ns`, the write of Update is
`UpdateVirtualSwitch` on `ns` for `name` and the remote calls of Delete are
the lookup for `hsID` and `RemoveVirtualSwitch` on `ns` for `name`.  The
fields `name` and `host_system_id` of `d` play no part. -/
theorem update_delete_address_by_identity {σ : Type} (env : Env σ) (d : ResourceData)
    (w : σ) (hsID name : String)
    (hdec : env.virtualSwitchIDsFromResourceID d = .ok (hsID, name)) :
    (resourceVSphereHostVirtualSwitchUpdate env d w).trace.all (Step.addresses hsID name) =
        true ∧
      (resourceVSphereHostVirtualSwitchDelete env d w).trace.all (Step.addresses hsID name) =
        true ∧
      (∀ ns w1, env.hostNetworkSystemFromHostSystemID w hsID = (.ok ns, w1) →
        (resourceVSphereHostVirtualSwitchUpdate env d w).trace.take 4 =
            [.virtualSwitchIDsFromResourceID, .hostNetworkSystemFromHostSystemID hsID,
              .expandHostVirtualSwitchSpec,
              .UpdateVirtualSwitch ns name (env.expandHostVirtualSwitchSpec d)] ∧
          (resourceVSphereHostVirtualSwitchDelete env d w).trace =
            [.virtualSwitchIDsFromResourceID, .hostNetworkSystemFromHostSystemID hsID,
              .RemoveVirtualSwitch ns name]) := by
  refine ⟨?_, ?_, ?_⟩
  · unfold resourceVSphereHostVirtualSwitchUpdate
    rcases h1 : env.hostNetworkSystemFromHostSystemID w hsID with ⟨r, w1⟩
    cases r with
    | error e => simp [hdec, h1, Step.addresses]
    | ok ns =>
      rcases h2 : env.UpdateVirtualSwitch w1 ns name (env.expandHostVirtualSwitchSpec d)
        with ⟨e, w2⟩
      cases e with
      | some e => simp [hdec, h1, h2, Step.addresses]
      | none =>
        have hr := read_trace_addresses env d w2 hsID name hdec
        simp only [List.all_eq_true] at hr
        simp [hdec, h1, h2, Outcome.after, Step.addresses]
        exact hr
  · unfold resourceVSphereHostVirtualSwitchDelete
    rcases h1 : env.hostNetworkSystemFromHostSystemID w hsID with ⟨r, w1⟩
    cases r with
    | error e => simp [hdec, h1, Step.addresses]
    | ok ns =>
      rcases h2 : env.RemoveVirtualSwitch w1 ns name with ⟨e, w2⟩
      cases e <;> simp [hdec, h1, h2, Step.addresses]
  · intro ns w1 h1
    constructor
    · unfold resourceVSphereHostVirtualSwitchUpdate
      rcases h2 : env.UpdateVirtualSwitch w1 ns name (env.expandHostVirtualSwitchSpec d)
        with ⟨e, w2⟩
      cases e <;> simp [hdec, h1, h2, Outcome.after]
    · unfold resourceVSphereHostVirtualSwitchDelete
      rcases h2 : env.RemoveVirtualSwitch w1 ns name with ⟨e, w2⟩
      cases e <;> simp [hdec, h1, h2]

/-- Witness for C18: the sample resource whose `name` and `host_system_id`
fields were changed after the identity was persisted; Update and Delete
still go to `vSwitchTest` on `host-10`. -/
theorem update_delete_address_by_identity_witness :
    renamedData.name = "vSwitchOther" ∧ renamedData.host_system_id = "host-99" ∧
      (resourceVSphereHostVirtualSwitchUpdate sampleEnv renamedData syncedWorld).trace.all
          (Step.addresses "host-10" "vSwitchTest") = true ∧
      (resourceVSphereHostVirtualSwitchDelete sampleEnv renamedData syncedWorld).trace =
        [.virtualSwitchIDsFromResourceID, .hostNetworkSystemFromHostSystemID "host-10",
          .RemoveVirtualSwitch ⟨"host-10"⟩ "vSwitchTest"] :=
  have h := update_delete_address_by_identity sampleEnv renamedData syncedWorld
    "host-10" "vSwitchTest" (by decide)
  ⟨rfl, rfl, h.1, (h.2.2 ⟨"host-10"⟩ syncedWorld (by decide)).2⟩

/-! ## C19: security and shaping defaults of the host-local schema -/

/-- C19. Whenever the merged schema has an entry for each key that
`resourceVSphereHostVirtualSwitch` rewrites, the function returns a schema in
which `allow_promiscuous` defaults to false, `allow_forged_transmits` to
true, `allow_mac_changes` to true and `shaping_enabled` to false, and in
which `active_nics` and `standby_nics` are Required. -/
theorem host_local_security_shaping_defaults
    (mergeSchema : SchemaMap → SchemaMap → SchemaMap) (spec : SchemaMap)
    (hostNetworkPolicyNicTeamingPolicyModeLoadbalanceSrcID : DefaultValue)
    (hkeys : ∀ k ∈ rewrittenKeys, (mergeSchema hostVirtualSwitchBaseSchema spec k).isSome) :
    ∃ s, resourceVSphereHostVirtualSwitch mergeSchema spec
          hostNetworkPolicyNicTeamingPolicyModeLoadbalanceSrcID = some s ∧
      s.defaultOf "allow_promiscuous" = some (some (.bool false)) ∧
      s.defaultOf "allow_forged_transmits" = some (some (.bool true)) ∧
      s.defaultOf "allow_mac_changes" = some (some (.bool true)) ∧
      s.defaultOf "shaping_enabled" = some (some (.bool false)) ∧
      s.requiredOf "active_nics" = some true ∧
      s.requiredOf "standby_nics" = some true := by
  obtain ⟨s, hs, h1, h2, _, _, _, _, h7, h8, h9, h10⟩ :=
    resourceSchema_entries mergeSchema spec
      hostNetworkPolicyNicTeamingPolicyModeLoadbalanceSrcID hkeys
  exact ⟨s, hs, h7, h8, h9, h10, h1, h2⟩

/-- Witness for C19: the sample switch-spec schema merged into the base map;
its entries for `active_nics` and `standby_nics` are not Required before. -/
theorem host_local_security_shaping_defaults_witness :
    sampleSwitchSpecSchema.requiredOf "active_nics" = some false ∧
      ∃ s, resourceVSphereHostVirtualSwitch sampleMergeSchema sampleSwitchSpecSchema
            (.str "loadbalance_srcid") = some s ∧
        s.defaultOf "allow_promiscuous" = some (some (.bool false)) ∧
        s.defaultOf "allow_forged_transmits" = some (some (.bool true)) ∧
        s.defaultOf "allow_mac_changes" = some (some (.bool true)) ∧
        s.defaultOf "shaping_enabled" = some (some (.bool false)) ∧
        s.requiredOf "active_nics" = some true ∧
        s.requiredOf "standby_nics" = some true :=
  ⟨by decide,
    host_local_security_shaping_defaults sampleMergeSchema sampleSwitchSpecSchema
      (.str "loadbalance_srcid") (by decide)⟩
end VSphere
